import Mathlib

/-!
Song catalog: pagination, lyric paging and uniqueness-checked writes.

A shallow embedding of the Go packages `errors`, `models`, `repository` and
`service` of the song catalog, followed by theorems about page arithmetic,
lyric pagination and the create / update orchestration.

Modelling conventions
* Go `int` is a 64-bit two's complement integer.  Values are carried as `Int`
  and every arithmetic operation of the source is followed by `wrapInt`.
* Go `string` is a Lean `String`; `strings.Split` and `strings.Join` are
  re-implemented on the character lists.
* `time.Time` is an instant counted in nanoseconds (`Int`).  A `TIMESTAMP` column
  keeps microseconds and no zone: what is read back after a write is given by
  `Env.timestampColumn`.
* The PostgreSQL table `songs` is a list of rows plus the next value of the
  `SERIAL` sequence.  Each SQL statement of `queries.go` is a function on that
  list.  A statement may fail at the driver level; the fault oracle of `Env`
  says which statement fails.  The insert applies the column types of the table
  (`VARCHAR(255)`, `TIMESTAMP`) and its `UNIQUE` constraint to the values sent.
* A Go function returning `(T, error)` returns a `Result T`; a slice expression
  out of range is the third outcome `panic`.
-/

namespace SongCatalog

/-! ## Go machine integers -/

/-- Two's complement wrap-around of a mathematical integer into the range of Go `int`. -/
def wrapInt (x : Int) : Int :=
  (x + 9223372036854775808) % 18446744073709551616 - 9223372036854775808

/-- Largest Go `int`. -/
def maxInt : Int := 9223372036854775807

/-- Go `a + b` on `int`. -/
def goAdd (a b : Int) : Int := wrapInt (a + b)

/-- Go `a - b` on `int`. -/
def goSub (a b : Int) : Int := wrapInt (a - b)

/-- Go `a * b` on `int`. -/
def goMul (a b : Int) : Int := wrapInt (a * b)

/-- Go `a / b` on `int`: truncated division.  Every divisor in the embedded code is
positive at the point of division, so the division-by-zero panic is not modelled. -/
def goDiv (a b : Int) : Int := wrapInt (Int.tdiv a b)

/-- Rendering of an `int` by the verb `%d` of `fmt.Sprintf`. -/
def fmtInt (x : Int) : String := toString x

/-! ## package errors -/

/-- The Go type `ErrorType` is a string type. -/
abbrev ErrorType := String

def NotFound : ErrorType := "NOT_FOUND"
def BadRequest : ErrorType := "BAD_REQUEST"
def Internal : ErrorType := "INTERNAL"
def Validation : ErrorType := "VALIDATION"
def AlreadyExists : ErrorType := "ALREADY_EXISTS"

/-- Error values that are not application errors: the sentinel `sql.ErrNoRows` and
any other error reported by the database driver. -/
inductive Cause where
  | ErrNoRows
  | driver (msg : String)
  deriving DecidableEq, Repr

/-- The struct `errors.Error`; the field `Type` is spelled `Typ`, `nil` is `none`. -/
structure Error where
  Typ : ErrorType
  Message : String
  Err : Option Cause
  deriving DecidableEq, Repr

def NewNotFound (message : String) (err : Option Cause) : Error :=
  { Typ := NotFound, Message := message, Err := err }

def NewLyricsNotFound (message : String) (err : Option Cause) : Error :=
  { Typ := NotFound, Message := message, Err := err }

def NewBadRequest (message : String) (err : Option Cause) : Error :=
  { Typ := BadRequest, Message := message, Err := err }

def NewInternal (message : String) (err : Option Cause) : Error :=
  { Typ := Internal, Message := message, Err := err }

def NewValidation (message : String) (err : Option Cause) : Error :=
  { Typ := Validation, Message := message, Err := err }

def NewAlreadyExists (message : String) (err : Option Cause) : Error :=
  { Typ := AlreadyExists, Message := message, Err := err }

/-- A value of the Go interface type `error`: an application error or another error. -/
inductive GoError where
  | app (e : Error)
  | other (c : Cause)
  deriving DecidableEq, Repr

/-- Outcome of a Go call returning `(T, error)`: a value, an error, or a run-time panic. -/
inductive Result (α : Type) where
  | ok (v : α)
  | err (e : GoError)
  | panic
  deriving DecidableEq, Repr

/-! ## package models -/

/-- Instants of `time.Time`, in nanoseconds. -/
abbrev Time := Int

structure Song where
  ID : Int
  GroupName : String
  SongName : String
  ReleaseDate : Time
  Text : String
  Link : String
  CreatedAt : Time
  UpdatedAt : Time
  deriving DecidableEq, Repr

structure SongRequest where
  GroupName : String
  SongName : String
  Text : String
  Link : String
  deriving DecidableEq, Repr

structure SongFilter where
  GroupName : String
  SongName : String
  FromDate : Option Time
  ToDate : Option Time
  Text : String
  Link : String
  Page : Int
  PageSize : Int
  deriving DecidableEq, Repr

structure SongsResponse where
  Songs : List Song
  CurrentPage : Int
  TotalPages : Int
  TotalItems : Int
  PageSize : Int
  deriving DecidableEq, Repr

structure LyricsResponse where
  Text : String
  CurrentPage : Int
  TotalPages : Int
  PageSize : Int
  deriving DecidableEq, Repr

/-! ## package strings -/

/-- Scanner behind `strings.Split` for a non-empty separator: `skip` counts the
characters of a matched separator still to be consumed, `cur` holds the current
piece in reverse.  Matches are found left to right and do not overlap. -/
def splitFrom (sep : List Char) : List Char → Nat → List Char → List (List Char)
  | [], _, cur => [cur.reverse]
  | _ :: rest, skip + 1, cur => splitFrom sep rest skip cur
  | c :: rest, 0, cur =>
    if sep.isPrefixOf (c :: rest) then
      cur.reverse :: splitFrom sep rest (sep.length - 1) []
    else
      splitFrom sep rest 0 (c :: cur)

/-- Go `strings.Split(s, sep)`: with an empty separator the string is exploded into
its characters, otherwise it is cut at every non-overlapping occurrence of `sep`. -/
def Split (s sep : String) : List String :=
  if sep = "" then s.data.map (fun c => String.mk [c])
  else (splitFrom sep.data s.data 0 []).map String.mk

/-- Go `strings.Join(elems, sep)`. -/
def Join : List String → String → String
  | [], _ => ""
  | [a], _ => a
  | a :: b :: rest, sep => a ++ sep ++ Join (b :: rest) sep

/-- Go slice expression `xs[lo:hi]` on a slice whose capacity equals its length
(as for the result of `strings.Split`); `none` is the run-time panic. -/
def sliceBetween {α : Type} (xs : List α) (lo hi : Int) : Option (List α) :=
  if 0 ≤ lo ∧ lo ≤ hi ∧ hi ≤ (xs.length : Int) then
    some ((xs.drop lo.toNat).take (hi.toNat - lo.toNat))
  else none

/-! ## package repository: the store -/

/-- The table `songs` and the next value of its `SERIAL` id sequence. -/
structure DB where
  rows : List Song
  nextID : Int
  deriving DecidableEq, Repr

/-- The database round trips made by `PostgresSongRepository`. -/
inductive Query where
  | countSongs
  | getSongs
  | scanSong
  | getSongByID
  | checkSongExistsForCreate
  | createSong
  | checkSongExists
  | updateSong
  | deleteSong
  | rowsAffected
  deriving DecidableEq, Repr

/-- What a call reads from outside the store: the wall clock of the process
(`time.Now()`), the clock of the database (`NOW()`), the time scanned back from a
`TIMESTAMP` column after a given `time.Time` was written to it (PostgreSQL keeps
microseconds and no zone), the operator `ILIKE` of PostgreSQL (value, pattern), and
the driver faults (`some msg` when the round trip fails). -/
structure Env where
  timeNow : Time
  NOW : Time
  timestampColumn : Time → Time
  ILIKE : String → String → Bool
  fault : Query → Option String

/-- The `WHERE` clause shared by `getSongsQuery` and `countSongsQuery`. -/
def whereFilter (env : Env) (f : SongFilter) (s : Song) : Bool :=
  (f.GroupName == "" || env.ILIKE s.GroupName ("%" ++ f.GroupName ++ "%")) &&
  (f.SongName == "" || env.ILIKE s.SongName ("%" ++ f.SongName ++ "%")) &&
  (match f.FromDate with
    | none => true
    | some d => decide (d ≤ s.ReleaseDate)) &&
  (match f.ToDate with
    | none => true
    | some d => decide (s.ReleaseDate ≤ d)) &&
  (f.Text == "" || env.ILIKE s.Text ("%" ++ f.Text ++ "%")) &&
  (f.Link == "" || env.ILIKE s.Link ("%" ++ f.Link ++ "%"))

/-- The statement `countSongsQuery`. -/
def countSongsQuery (env : Env) (f : SongFilter) (db : DB) : Int :=
  ((db.rows.filter (whereFilter env f)).length : Int)

/-- The statement `getSongsQuery`: matching rows, newest first, `LIMIT` and `OFFSET`. -/
def getSongsQuery (env : Env) (f : SongFilter) (limit offset : Int) (db : DB) : List Song :=
  (((db.rows.filter (whereFilter env f)).insertionSort
      (fun a b => b.CreatedAt ≤ a.CreatedAt)).drop offset.toNat).take limit.toNat

/-- The statement `getSongByIDQuery`: the row with the given id, if any. -/
def getSongByIDQuery (id : Int) (db : DB) : Option Song :=
  db.rows.find? (fun s => s.ID == id)

/-- The statement `checkSongExistsForCreateQuery`. -/
def checkSongExistsForCreateQuery (group song : String) (db : DB) : Bool :=
  db.rows.any (fun r => r.GroupName == group && r.SongName == song)

/-- The statement `checkSongExistsQuery`. -/
def checkSongExistsQuery (group song : String) (id : Int) (db : DB) : Bool :=
  db.rows.any (fun r => r.GroupName == group && r.SongName == song && r.ID != id)

/-- What a `VARCHAR(255)` column keeps of a string sent to it: the string itself up
to 255 characters; a longer string is cut to 255 characters when the excess is all
spaces and is rejected otherwise (`none`). -/
def varchar255 (s : String) : Option String :=
  if s.length ≤ 255 then some s
  else if (s.data.drop 255).all (fun c => c == ' ') then some (String.mk (s.data.take 255))
  else none

/-- The row inserted by `createSongQuery`, as the columns of the table keep it:
`group_name`, `song_name` and `link` are `VARCHAR(255)`, `release_date` is
`TIMESTAMP`, `text` is `TEXT`; the id comes from the sequence and both store
timestamps default to `NOW()`.  `none` when a value does not fit its column. -/
def createdRow (env : Env) (song : Song) (db : DB) : Option Song :=
  match varchar255 song.GroupName, varchar255 song.SongName, varchar255 song.Link with
  | some group, some title, some link =>
    some { ID := db.nextID, GroupName := group, SongName := title,
           ReleaseDate := env.timestampColumn song.ReleaseDate, Text := song.Text,
           Link := link, CreatedAt := env.NOW, UpdatedAt := env.NOW }
  | _, _, _ => none

/-- The constraint `UNIQUE(group_name, song_name)` of the table: whether a row with
the pair of `row` is already stored. -/
def violatesUnique (row : Song) (db : DB) : Bool :=
  db.rows.any (fun r => r.GroupName == row.GroupName && r.SongName == row.SongName)

/-- The statement `createSongQuery`: the row scanned back from `RETURNING` and the new
table, or the error of PostgreSQL when the table rejects the row. -/
def createSongQuery (env : Env) (song : Song) (db : DB) : Except String (Song × DB) :=
  match createdRow env song db with
  | none => .error "pq: value too long for type character varying(255)"
  | some row =>
    if violatesUnique row db then
      .error "pq: duplicate key value violates unique constraint"
    else .ok (row, { rows := db.rows ++ [row], nextID := db.nextID + 1 })

/-- The `SET` list of `updateSongQuery` applied to one row. -/
def updatedRow (env : Env) (song : Song) (r : Song) : Song :=
  if r.ID = song.ID then
    { r with GroupName := song.GroupName, SongName := song.SongName,
             ReleaseDate := song.ReleaseDate, Text := song.Text, Link := song.Link,
             UpdatedAt := env.NOW }
  else r

/-- The statement `updateSongQuery`: the new table and the first returned row. -/
def updateSongQuery (env : Env) (song : Song) (db : DB) : Option Song × DB :=
  ((db.rows.map (updatedRow env song)).find? (fun r => r.ID == song.ID),
   { db with rows := db.rows.map (updatedRow env song) })

/-- The statement `deleteSongQuery`: the new table and the number of rows affected. -/
def deleteSongQuery (id : Int) (db : DB) : Int × DB :=
  (((db.rows.filter (fun r => r.ID == id)).length : Int),
   { db with rows := db.rows.filter (fun r => r.ID != id) })

/-! ## package repository: PostgresSongRepository -/

/-- The Go interface `SongRepository`, over a store state `σ`: every method takes the
state before the call and returns its outcome with the state after the call. -/
structure SongRepository (σ : Type) where
  GetSongs : SongFilter → σ → Result SongsResponse × σ
  GetSongByID : Int → σ → Result Song × σ
  CreateSong : Song → σ → Result Song × σ
  UpdateSong : Song → σ → Result Song × σ
  DeleteSong : Int → σ → Option GoError × σ

/-- An `Internal` application error wrapping a driver failure. -/
def internalErr {α : Type} (message driverMsg : String) : Result α :=
  .err (.app (NewInternal message (some (.driver driverMsg))))

/-- The method `PostgresSongRepository.GetSongs`. -/
def PostgresSongRepository.GetSongs (env : Env) (filter : SongFilter) (db : DB) :
    Result SongsResponse × DB :=
  let pageSize : Int := if filter.PageSize ≤ 0 then 10 else filter.PageSize
  let page : Int := if filter.Page ≤ 0 then 1 else filter.Page
  match env.fault .countSongs with
  | some m => (internalErr "failed to count songs" m, db)
  | none =>
    let totalItems := countSongsQuery env filter db
    let totalPages := goDiv (goSub (goAdd totalItems pageSize) 1) pageSize
    if page > totalPages then
      (.err (.app (NewNotFound
        ("page " ++ fmtInt page ++ " does not exist, total pages: " ++ fmtInt totalPages)
        none)), db)
    else
      let offset := goMul (goSub page 1) pageSize
      match env.fault .getSongs with
      | some m => (internalErr "failed to query songs" m, db)
      | none =>
        let songs := getSongsQuery env filter pageSize offset db
        match songs, env.fault .scanSong with
        | _ :: _, some m => (internalErr "failed to scan song" m, db)
        | _, _ =>
          (.ok { Songs := songs, CurrentPage := page, TotalPages := totalPages,
                 TotalItems := totalItems, PageSize := pageSize }, db)

/-- The method `PostgresSongRepository.GetSongByID`. -/
def PostgresSongRepository.GetSongByID (env : Env) (id : Int) (db : DB) :
    Result Song × DB :=
  match env.fault .getSongByID with
  | some m => (internalErr "failed to get song" m, db)
  | none =>
    match getSongByIDQuery id db with
    | none => (.err (.app (NewNotFound "song not found" (some .ErrNoRows))), db)
    | some song => (.ok song, db)

/-- The method `PostgresSongRepository.CreateSong`. -/
def PostgresSongRepository.CreateSong (env : Env) (song : Song) (db : DB) :
    Result Song × DB :=
  match env.fault .checkSongExistsForCreate with
  | some m => (internalErr "failed to check song existence" m, db)
  | none =>
    if checkSongExistsForCreateQuery song.GroupName song.SongName db then
      (.err (.app (NewAlreadyExists
        "song with this group name and song name already exists" none)), db)
    else
      match env.fault .createSong with
      | some m => (internalErr "failed to create song" m, db)
      | none =>
        match createSongQuery env song db with
        | .error m => (internalErr "failed to create song" m, db)
        | .ok (row, db1) => (.ok row, db1)

/-- The method `PostgresSongRepository.UpdateSong`. -/
def PostgresSongRepository.UpdateSong (env : Env) (song : Song) (db : DB) :
    Result Song × DB :=
  match env.fault .checkSongExists with
  | some m => (internalErr "failed to check song existence" m, db)
  | none =>
    if checkSongExistsQuery song.GroupName song.SongName song.ID db then
      (.err (.app (NewAlreadyExists
        "song with this group name and song name already exists" none)), db)
    else
      match env.fault .updateSong with
      | some m => (internalErr "failed to update song" m, db)
      | none =>
        match (updateSongQuery env song db).1 with
        | none => (.err (.app (NewNotFound "song not found" (some .ErrNoRows))), db)
        | some row => (.ok row, (updateSongQuery env song db).2)

/-- The method `PostgresSongRepository.DeleteSong`. -/
def PostgresSongRepository.DeleteSong (env : Env) (id : Int) (db : DB) :
    Option GoError × DB :=
  match env.fault .deleteSong with
  | some m => (some (.app (NewInternal "failed to delete song" (some (.driver m)))), db)
  | none =>
    match env.fault .rowsAffected with
    | some m =>
      (some (.app (NewInternal "failed to get rows affected" (some (.driver m)))),
       (deleteSongQuery id db).2)
    | none =>
      if (deleteSongQuery id db).1 = 0 then
        (some (.app (NewNotFound "song not found" none)), (deleteSongQuery id db).2)
      else (none, (deleteSongQuery id db).2)

/-- The constructor `NewPostgresSongRepository`: the methods as a `SongRepository`. -/
def NewPostgresSongRepository (env : Env) : SongRepository DB :=
  { GetSongs := PostgresSongRepository.GetSongs env
    GetSongByID := PostgresSongRepository.GetSongByID env
    CreateSong := PostgresSongRepository.CreateSong env
    UpdateSong := PostgresSongRepository.UpdateSong env
    DeleteSong := PostgresSongRepository.DeleteSong env }

/-! ## package service: SongService -/

/-- The method `SongService.GetSongs`. -/
def SongService.GetSongs {σ : Type} (repo : SongRepository σ) (filter : SongFilter)
    (st : σ) : Result SongsResponse × σ :=
  repo.GetSongs filter st

/-- The method `SongService.GetLyrics`. -/
def SongService.GetLyrics {σ : Type} (repo : SongRepository σ) (id page pageSize : Int)
    (st : σ) : Result LyricsResponse × σ :=
  match repo.GetSongByID id st with
  | (.err e, st1) => (.err e, st1)
  | (.panic, st1) => (.panic, st1)
  | (.ok song, st1) =>
    if song.Text = "" then
      (.err (.app (NewLyricsNotFound "lyrics not found" none)), st1)
    else
      let verses := Split song.Text "\n\n"
      let page : Int := if page ≤ 0 then 1 else page
      let pageSize : Int := if pageSize ≤ 0 then 10 else pageSize
      let totalPages := goDiv (goSub (goAdd (verses.length : Int) pageSize) 1) pageSize
      if page > totalPages then
        (.err (.app (NewNotFound "page out of range" none)), st1)
      else
        let start := goMul (goSub page 1) pageSize
        let end0 := goAdd start pageSize
        let end1 : Int := if end0 > (verses.length : Int) then (verses.length : Int) else end0
        match sliceBetween verses start end1 with
        | none => (.panic, st1)
        | some sel =>
          (.ok { Text := Join sel "\n\n", CurrentPage := page, TotalPages := totalPages,
                 PageSize := pageSize }, st1)

/-- The method `SongService.CreateSong`; `now` is the value read by `time.Now()`.
The fields the service does not set hold the zero value. -/
def SongService.CreateSong {σ : Type} (repo : SongRepository σ) (now : Time)
    (req : SongRequest) (st : σ) : Result Song × σ :=
  repo.CreateSong
    { ID := 0, GroupName := req.GroupName, SongName := req.SongName, ReleaseDate := now,
      Text := req.Text, Link := req.Link, CreatedAt := 0, UpdatedAt := 0 } st

/-- The merge of an update request into the loaded record, as written in
`SongService.UpdateSong` before the store is called. -/
def mergeRequest (now : Time) (req : SongRequest) (song : Song) : Song :=
  let song := if req.GroupName ≠ "" then { song with GroupName := req.GroupName } else song
  let song := if req.SongName ≠ "" then { song with SongName := req.SongName } else song
  let song := if req.Text ≠ "" then { song with Text := req.Text } else song
  let song := if req.Link ≠ "" then { song with Link := req.Link } else song
  { song with UpdatedAt := now }

/-- The method `SongService.UpdateSong`; `now` is the value read by `time.Now()`. -/
def SongService.UpdateSong {σ : Type} (repo : SongRepository σ) (now : Time) (id : Int)
    (req : SongRequest) (st : σ) : Result Song × σ :=
  match repo.GetSongByID id st with
  | (.err e, st1) => (.err e, st1)
  | (.panic, st1) => (.panic, st1)
  | (.ok song, st1) => repo.UpdateSong (mergeRequest now req song) st1

/-- The method `SongService.DeleteSong`. -/
def SongService.DeleteSong {σ : Type} (repo : SongRepository σ) (id : Int) (st : σ) :
    Option GoError × σ :=
  repo.DeleteSong id st

/-- The service wired to the PostgreSQL repository, as `app.go` builds it. -/
def catalog (env : Env) : SongRepository DB := NewPostgresSongRepository env

/-! ## Concrete data used in examples -/

/-- An environment without faults; `ILIKE` is never consulted by an empty filter and
a `TIMESTAMP` column rounds to the microsecond. -/
def quietEnv : Env :=
  { timeNow := 1000, NOW := 2000, timestampColumn := fun t => (t + 500) / 1000 * 1000,
    ILIKE := fun _ _ => false, fault := fun _ => none }

/-- A filter with every criterion empty. -/
def emptyFilter (page pageSize : Int) : SongFilter :=
  { GroupName := "", SongName := "", FromDate := none, ToDate := none, Text := "",
    Link := "", Page := page, PageSize := pageSize }

/-- A stored song with the given id, group, title and text. -/
def mkSong (id : Int) (group title text : String) : Song :=
  { ID := id, GroupName := group, SongName := title, ReleaseDate := 10, Text := text,
    Link := "L", CreatedAt := 20, UpdatedAt := 30 }

/-- Membership in the range of Go `int`. -/
def IsGoInt (x : Int) : Prop := -9223372036854775808 ≤ x ∧ x ≤ maxInt

/-- The page a request is normalised to. -/
def normPage (page : Int) : Int := if page ≤ 0 then 1 else page

/-- The page size a request is normalised to. -/
def normPageSize (pageSize : Int) : Int := if pageSize ≤ 0 then 10 else pageSize

/-- The mathematical `ceil(n / s)`, taken in the rationals. -/
def ceilDiv (n s : Int) : Int := ⌈(n : ℚ) / (s : ℚ)⌉

/-- A table of two songs by the same group. -/
def twoSongs : DB :=
  { rows := [mkSong 1 "g" "t" "A\n\nB", mkSong 2 "g" "u" "x"], nextID := 3 }

/-- A table holding one song, with id 1 and the given lyrics. -/
def lyricsDB (text : String) : DB :=
  { rows := [mkSong 1 "g" "t" text], nextID := 2 }

/-- The record `SongService.CreateSong` hands to the repository. -/
def requestedSong (now : Time) (req : SongRequest) : Song :=
  { ID := 0, GroupName := req.GroupName, SongName := req.SongName, ReleaseDate := now,
    Text := req.Text, Link := req.Link, CreatedAt := 0, UpdatedAt := 0 }

/-- No two stored songs share the pair (group name, song title). -/
def UniquePairs (db : DB) : Prop :=
  db.rows.Pairwise (fun a b => ¬ (a.GroupName = b.GroupName ∧ a.SongName = b.SongName))

/-- The primary key: no two stored songs share an id. -/
def UniqueIDs (db : DB) : Prop := (db.rows.map (fun r => r.ID)).Nodup

/-- A create or update request with the given four fields. -/
def mkRequest (group title text link : String) : SongRequest :=
  { GroupName := group, SongName := title, Text := text, Link := link }

/-- The stored song (A, B, T, L) with id 1. -/
def songAB : Song :=
  { ID := 1, GroupName := "A", SongName := "B", ReleaseDate := 10, Text := "T",
    Link := "L", CreatedAt := 20, UpdatedAt := 30 }

/-- The stored song (A, D, U, M) with id 2. -/
def songAD : Song :=
  { ID := 2, GroupName := "A", SongName := "D", ReleaseDate := 11, Text := "U",
    Link := "M", CreatedAt := 21, UpdatedAt := 31 }

/-- A table of two songs by different titles, used for update examples. -/
def abStore : DB := { rows := [songAB, songAD], nextID := 3 }

/-- The song `songAB` after an update that changes no field. -/
def songABTouched : Song :=
  { ID := 1, GroupName := "A", SongName := "B", ReleaseDate := 10, Text := "T",
    Link := "L", CreatedAt := 20, UpdatedAt := 2000 }

/-- The song `songAB` after its title is updated to C. -/
def songAC : Song :=
  { ID := 1, GroupName := "A", SongName := "C", ReleaseDate := 10, Text := "T",
    Link := "L", CreatedAt := 20, UpdatedAt := 2000 }

/-- Every stored id lies below the next value of the id sequence. -/
def FreshSequence (db : DB) : Prop := ∀ r ∈ db.rows, r.ID < db.nextID

/-- The store invariant: unique (group, title) pairs, unique ids, fresh sequence. -/
def StoreInvariant (db : DB) : Prop := UniquePairs db ∧ UniqueIDs db ∧ FreshSequence db

/-! ## package handlers -/

/-- The constant `http.StatusNotFound`. -/
def StatusNotFound : Int := 404

/-- The constant `http.StatusBadRequest`. -/
def StatusBadRequest : Int := 400

/-- The constant `http.StatusUnprocessableEntity`. -/
def StatusUnprocessableEntity : Int := 422

/-- The constant `http.StatusConflict`. -/
def StatusConflict : Int := 409

/-- The constant `http.StatusInternalServerError`. -/
def StatusInternalServerError : Int := 500

/-- The method `SongHandler.handleError`: the status and the message it passes to
`http.Error`.  The `switch` on the error type tries its cases in source order. -/
def handleError (err : GoError) : Int × String :=
  match err with
  | .app appErr =>
    if appErr.Typ = NotFound then (StatusNotFound, appErr.Message)
    else if appErr.Typ = BadRequest then (StatusBadRequest, appErr.Message)
    else if appErr.Typ = Validation then (StatusUnprocessableEntity, appErr.Message)
    else if appErr.Typ = AlreadyExists then (StatusConflict, appErr.Message)
    else (StatusInternalServerError, "Internal server error")
  | .other _ => (StatusInternalServerError, "Internal server error")

/-- Go `strings.Contains(s, substr)`: some suffix of `s` starts with `substr`. -/
def Contains (s substr : String) : Bool :=
  s.data.tails.any (fun t => substr.data.isPrefixOf t)

/-- No occurrence of `sep` starts inside the piece under construction `cur` (held in
reverse) when it is followed by the unread input `l`. -/
def NoMatchInside (sep cur l : List Char) : Prop :=
  ∀ a b, cur.reverse = a ++ b → b ≠ [] → ¬ sep <+: (b ++ l)

/-- What the page arithmetic hands on: the normalised page and page size, the total
page count and the offset of the first item of the page. -/
structure PageWindow where
  page : Int
  pageSize : Int
  totalPages : Int
  offset : Int
  deriving DecidableEq, Repr

/-- The page arithmetic written out in `PostgresSongRepository.GetSongs`, as a
function of the counted items; `none` is the rejection "page does not exist". -/
def songsPageWindow (totalItems page pageSize : Int) : Option PageWindow :=
  let pageSize : Int := if pageSize ≤ 0 then 10 else pageSize
  let page : Int := if page ≤ 0 then 1 else page
  let totalPages := goDiv (goSub (goAdd totalItems pageSize) 1) pageSize
  if page > totalPages then none
  else
    let offset := goMul (goSub page 1) pageSize
    some { page := page, pageSize := pageSize, totalPages := totalPages, offset := offset }

/-- The page arithmetic written out in `SongService.GetLyrics`, as a function of the
number of verses; `none` is the rejection "page out of range". -/
def lyricsPageWindow (lenVerses page pageSize : Int) : Option PageWindow :=
  let page : Int := if page ≤ 0 then 1 else page
  let pageSize : Int := if pageSize ≤ 0 then 10 else pageSize
  let totalPages := goDiv (goSub (goAdd lenVerses pageSize) 1) pageSize
  if page > totalPages then none
  else
    let start := goMul (goSub page 1) pageSize
    some { page := page, pageSize := pageSize, totalPages := totalPages, offset := start }

/-- The variable `start` of `SongService.GetLyrics`. -/
def lyricsStart (page pageSize : Int) : Int :=
  goMul (goSub (normPage page) 1) (normPageSize pageSize)

/-- The variable `end` of `SongService.GetLyrics` after it is capped at `len(verses)`. -/
def lyricsEnd (lenVerses page pageSize : Int) : Int :=
  if goAdd (lyricsStart page pageSize) (normPageSize pageSize) > lenVerses then lenVerses
  else goAdd (lyricsStart page pageSize) (normPageSize pageSize)

/-- Concatenation of pieces with a separator between them, on character lists. -/
def joinChars : List (List Char) → List Char → List Char
  | [], _ => []
  | [a], _ => a
  | a :: b :: rest, sep => a ++ sep ++ joinChars (b :: rest) sep

/-- The first `k` pages of `s` verses each: page `i + 1` holds `v[i*s .. (i+1)*s)`. -/
def verseChunks (s : Nat) (v : List String) (k : Nat) : List (List String) :=
  (List.range k).map (fun i => (v.drop (i * s)).take s)

/-- An environment without faults whose clock reads a time with nanoseconds and whose
`TIMESTAMP` column rounds to the microsecond. -/
def microEnv : Env :=
  { timeNow := 1700000000123456789, NOW := 1700000000200000000,
    timestampColumn := fun t => (t + 500) / 1000 * 1000,
    ILIKE := fun _ _ => false, fault := fun _ => none }

/-- A group name of 256 characters: 255 letters followed by one space. -/
def longGroup : String := String.mk (List.replicate 255 'a' ++ [' '])

/-! ## Arithmetic of the page count -/

theorem wrapInt_of_range (x : Int) (h1 : -9223372036854775808 ≤ x)
    (h2 : x ≤ 9223372036854775807) : wrapInt x = x := by
  unfold wrapInt; omega

theorem tdiv_nonpos_bounds (a b : Int) (ha : a ≤ 0) (hb : 0 < b) :
    a ≤ Int.tdiv a b ∧ Int.tdiv a b ≤ 0 := by
  have h : Int.tdiv a b = -(Int.tdiv (-a) b) := by
    rw [Int.neg_tdiv]; simp
  have h2 : Int.tdiv (-a) b = (-a) / b := Int.tdiv_eq_ediv (by omega) (by omega)
  have h3 : (-a) / b ≤ -a := Int.ediv_le_self _ (by omega)
  have h4 : 0 ≤ (-a) / b := Int.ediv_nonneg (by omega) (by omega)
  omega

theorem ceilDiv_eq (n s : Int) (hs : 0 < s) : ceilDiv n s = (n + s - 1) / s := by
  unfold ceilDiv
  rw [Int.ceil_eq_iff]
  have hsq : (0 : ℚ) < (s : ℚ) := by exact_mod_cast hs
  have h1 : (n + s - 1) / s * s ≤ n + s - 1 := Int.ediv_mul_le _ (by omega)
  have h2 : n + s - 1 < ((n + s - 1) / s + 1) * s := Int.lt_ediv_add_one_mul_self _ hs
  constructor
  · rw [lt_div_iff₀ hsq]
    have : ((n + s - 1) / s - 1) * s < n := by nlinarith
    exact_mod_cast this
  · rw [div_le_iff₀ hsq]
    have : n ≤ (n + s - 1) / s * s := by nlinarith
    exact_mod_cast this

/-- Without wrap-around the source expression `(n + s - 1) / s` is the ceiling. -/
theorem pageCount_exact (n s : Int) (hn : 0 ≤ n) (hs : 0 < s)
    (h : n + s - 1 ≤ 9223372036854775807) :
    goDiv (goSub (goAdd n s) 1) s = ceilDiv n s := by
  have e1 : goSub (goAdd n s) 1 = n + s - 1 := by
    unfold goSub goAdd wrapInt; omega
  rw [e1, ceilDiv_eq n s hs]
  unfold goDiv
  rw [Int.tdiv_eq_ediv (by omega) (by omega)]
  have h3 : (n + s - 1) / s ≤ n + s - 1 := Int.ediv_le_self _ (by omega)
  have h4 : 0 ≤ (n + s - 1) / s := Int.ediv_nonneg (by omega) (by omega)
  exact wrapInt_of_range _ (by omega) (by omega)

/-- When `n + s - 1` exceeds the largest `int` the source expression is not positive. -/
theorem pageCount_wrapped (n s : Int) (hn : 0 ≤ n) (hn2 : n ≤ 9223372036854775807)
    (hs : 0 < s) (hs2 : s ≤ 9223372036854775807)
    (h : 9223372036854775807 < n + s - 1) :
    goDiv (goSub (goAdd n s) 1) s ≤ 0 := by
  have e1 : goSub (goAdd n s) 1 = n + s - 1 - 18446744073709551616 := by
    unfold goSub goAdd wrapInt; omega
  rw [e1]
  unfold goDiv
  have hb := tdiv_nonpos_bounds (n + s - 1 - 18446744073709551616) s (by omega) hs
  rw [wrapInt_of_range _ (by omega) (by omega)]
  exact hb.2

/-- A positive page that passes the range check lies within the true page count, and
the offset of its first item is below the item count and is computed without wrap. -/
theorem page_in_range (n s p : Int) (hn : 0 ≤ n) (hn2 : n ≤ 9223372036854775807)
    (hs : 0 < s) (hs2 : s ≤ 9223372036854775807) (hp : 1 ≤ p)
    (hle : p ≤ goDiv (goSub (goAdd n s) 1) s) :
    goDiv (goSub (goAdd n s) 1) s = ceilDiv n s ∧ (p - 1) * s < n ∧
      goMul (goSub p 1) s = (p - 1) * s ∧ n + s - 1 ≤ 9223372036854775807 := by
  have hno : n + s - 1 ≤ 9223372036854775807 := by
    by_contra hc
    have := pageCount_wrapped n s hn hn2 hs hs2 (by omega)
    omega
  have hex := pageCount_exact n s hn hs hno
  rw [hex] at hle
  rw [ceilDiv_eq n s hs] at hle
  have h1 : (n + s - 1) / s * s ≤ n + s - 1 := Int.ediv_mul_le _ (by omega)
  have h2 : p * s ≤ (n + s - 1) / s * s := Int.mul_le_mul_of_nonneg_right hle (by omega)
  have h3 : (p - 1) * s < n := by nlinarith
  have h4 : 0 ≤ (p - 1) * s := Int.mul_nonneg (by omega) (by omega)
  have h5 : (n + s - 1) / s ≤ n + s - 1 := Int.ediv_le_self _ (by omega)
  refine ⟨hex, h3, ?_, hno⟩
  have e1 : goSub p 1 = p - 1 := by
    unfold goSub; exact wrapInt_of_range _ (by omega) (by omega)
  rw [e1]
  unfold goMul
  exact wrapInt_of_range _ (by omega) (by omega)

/-- A positive page above the true page count fails the range check of the source. -/
theorem page_out_of_range (n s p : Int) (hn : 0 ≤ n) (hn2 : n ≤ 9223372036854775807)
    (hs : 0 < s) (hs2 : s ≤ 9223372036854775807) (hp : 1 ≤ p)
    (hgt : ceilDiv n s < p) : goDiv (goSub (goAdd n s) 1) s < p := by
  by_cases hno : n + s - 1 ≤ 9223372036854775807
  · rw [pageCount_exact n s hn hs hno]; exact hgt
  · have := pageCount_wrapped n s hn hn2 hs hs2 (by omega)
    omega

/-! ## Song listing -/

theorem countSongsQuery_nonneg (env : Env) (f : SongFilter) (db : DB) :
    0 ≤ countSongsQuery env f db := by
  unfold countSongsQuery; omega

theorem countSongsQuery_le (env : Env) (f : SongFilter) (db : DB) :
    countSongsQuery env f db ≤ (db.rows.length : Int) := by
  unfold countSongsQuery
  exact_mod_cast List.length_filter_le _ _

theorem normPage_pos (p : Int) : 1 ≤ normPage p := by
  unfold normPage; split <;> omega

theorem normPageSize_pos (s : Int) : 0 < normPageSize s := by
  unfold normPageSize; split <;> omega

theorem normPageSize_le (s : Int) (h : s ≤ 9223372036854775807) :
    normPageSize s ≤ 9223372036854775807 := by
  unfold normPageSize; split <;> omega

/-- The outcome of `GetSongs` when the count query fails. -/
theorem GetSongs_count_fault (env : Env) (f : SongFilter) (db : DB) (m : String)
    (h : env.fault .countSongs = some m) :
    PostgresSongRepository.GetSongs env f db = (internalErr "failed to count songs" m, db) := by
  simp only [PostgresSongRepository.GetSongs, h]

/-- The outcome of `GetSongs` when the count succeeds and the page is out of range. -/
theorem GetSongs_out_of_range (env : Env) (f : SongFilter) (db : DB)
    (h : env.fault .countSongs = none)
    (hgt : goDiv (goSub (goAdd (countSongsQuery env f db) (normPageSize f.PageSize)) 1)
            (normPageSize f.PageSize) < normPage f.Page) :
    PostgresSongRepository.GetSongs env f db =
      (.err (.app (NewNotFound
        ("page " ++ fmtInt (normPage f.Page) ++ " does not exist, total pages: " ++
          fmtInt (goDiv (goSub (goAdd (countSongsQuery env f db) (normPageSize f.PageSize)) 1)
            (normPageSize f.PageSize))) none)), db) := by
  unfold normPage normPageSize at hgt
  simp only [PostgresSongRepository.GetSongs, h, normPage, normPageSize]
  rw [if_pos (by simpa using hgt)]

/-- Every successful `GetSongs` passed the range check and reports the normalised
request, the counted items and the rows selected at the computed offset. -/
theorem GetSongs_ok_inv (env : Env) (f : SongFilter) (db db1 : DB) (resp : SongsResponse)
    (h : PostgresSongRepository.GetSongs env f db = (.ok resp, db1)) :
    normPage f.Page ≤ goDiv (goSub (goAdd (countSongsQuery env f db)
        (normPageSize f.PageSize)) 1) (normPageSize f.PageSize) ∧
    db1 = db ∧
    resp = { Songs := getSongsQuery env f (normPageSize f.PageSize)
                        (goMul (goSub (normPage f.Page) 1) (normPageSize f.PageSize)) db
             CurrentPage := normPage f.Page
             TotalPages := goDiv (goSub (goAdd (countSongsQuery env f db)
                (normPageSize f.PageSize)) 1) (normPageSize f.PageSize)
             TotalItems := countSongsQuery env f db
             PageSize := normPageSize f.PageSize } := by
  have eP : (if f.Page ≤ 0 then (1 : Int) else f.Page) = normPage f.Page := rfl
  have eS : (if f.PageSize ≤ 0 then (10 : Int) else f.PageSize) = normPageSize f.PageSize := rfl
  simp only [PostgresSongRepository.GetSongs, internalErr, eP, eS] at h
  generalize normPage f.Page = P at h ⊢
  generalize normPageSize f.PageSize = S at h ⊢
  split at h
  · simp at h
  · split at h
    · simp at h
    · rename_i hle
      split at h
      · simp at h
      · split at h
        · simp at h
        · simp only [Prod.mk.injEq, Result.ok.injEq] at h
          exact ⟨by simpa using hle, h.2.symm, h.1.symm⟩

/-- The page selected by `getSongsQuery` at an offset below the count is not empty. -/
theorem getSongsQuery_ne_nil (env : Env) (f : SongFilter) (db : DB) (limit offset : Int)
    (hl : 0 < limit) (ho : 0 ≤ offset) (hlt : offset < countSongsQuery env f db) :
    getSongsQuery env f limit offset db ≠ [] := by
  unfold getSongsQuery
  unfold countSongsQuery at hlt
  intro hnil
  have hlen := congrArg List.length hnil
  simp only [List.length_take, List.length_drop, List.length_insertionSort,
    List.length_nil] at hlen
  omega

/-- C1 (defect in the page count): with two stored songs and the largest page size
the sum `totalItems + pageSize - 1` wraps around, so `GetSongs` computes -1 total
pages and rejects page 1, although `ceil(2 / pageSize)` is 1. -/
theorem GetSongs_pageCount_wraps :
    countSongsQuery quietEnv (emptyFilter 1 9223372036854775807) twoSongs = 2 ∧
    goDiv (goSub (goAdd 2 9223372036854775807) 1) 9223372036854775807 = -1 ∧
    ceilDiv 2 9223372036854775807 = 1 ∧
    PostgresSongRepository.GetSongs quietEnv (emptyFilter 1 9223372036854775807) twoSongs =
      (.err (.app (NewNotFound "page 1 does not exist, total pages: -1" none)), twoSongs) := by
  refine ⟨by decide, by decide, ?_, by decide⟩
  rw [ceilDiv_eq _ _ (by decide)]
  decide

/-- C2: when the count query succeeds, `GetSongs` fails with `NotFound` and leaves no
response whenever the normalised page exceeds the computed page count, whenever it
exceeds `ceil(totalItems / pageSize)`, and whenever nothing matches; and every
successful response has `1 ≤ CurrentPage ≤ TotalPages`, a page count equal to the
ceiling, `(CurrentPage - 1) * PageSize < TotalItems` and at least one song. -/
theorem GetSongs_page_bounds (env : Env) (f : SongFilter) (db : DB)
    (hcount : env.fault .countSongs = none)
    (hrows : (db.rows.length : Int) ≤ maxInt) (hsize : f.PageSize ≤ maxInt) :
    (goDiv (goSub (goAdd (countSongsQuery env f db) (normPageSize f.PageSize)) 1)
        (normPageSize f.PageSize) < normPage f.Page →
      ∃ e, PostgresSongRepository.GetSongs env f db = (.err (.app e), db) ∧
        e.Typ = NotFound) ∧
    (ceilDiv (countSongsQuery env f db) (normPageSize f.PageSize) < normPage f.Page →
      ∃ e, PostgresSongRepository.GetSongs env f db = (.err (.app e), db) ∧
        e.Typ = NotFound) ∧
    (countSongsQuery env f db = 0 →
      ∃ e, PostgresSongRepository.GetSongs env f db = (.err (.app e), db) ∧
        e.Typ = NotFound) ∧
    (∀ resp db1, PostgresSongRepository.GetSongs env f db = (.ok resp, db1) →
      db1 = db ∧ 1 ≤ resp.CurrentPage ∧ resp.CurrentPage ≤ resp.TotalPages ∧
      resp.TotalPages = ceilDiv resp.TotalItems resp.PageSize ∧
      (resp.CurrentPage - 1) * resp.PageSize < resp.TotalItems ∧ resp.Songs ≠ []) := by
  unfold maxInt at hrows hsize
  have hn := countSongsQuery_nonneg env f db
  have hn2 : countSongsQuery env f db ≤ 9223372036854775807 :=
    le_trans (countSongsQuery_le env f db) hrows
  have hs := normPageSize_pos f.PageSize
  have hs2 := normPageSize_le f.PageSize hsize
  have hp := normPage_pos f.Page
  have part1 : goDiv (goSub (goAdd (countSongsQuery env f db) (normPageSize f.PageSize)) 1)
        (normPageSize f.PageSize) < normPage f.Page →
      ∃ e, PostgresSongRepository.GetSongs env f db = (.err (.app e), db) ∧
        e.Typ = NotFound := fun hgt =>
    ⟨_, GetSongs_out_of_range env f db hcount hgt, rfl⟩
  have part2 : ceilDiv (countSongsQuery env f db) (normPageSize f.PageSize) < normPage f.Page →
      ∃ e, PostgresSongRepository.GetSongs env f db = (.err (.app e), db) ∧
        e.Typ = NotFound := fun hgt =>
    part1 (page_out_of_range _ _ _ hn hn2 hs hs2 hp hgt)
  refine ⟨part1, part2, ?_, ?_⟩
  · intro h0
    apply part2
    rw [h0, ceilDiv_eq _ _ hs]
    have : (0 + normPageSize f.PageSize - 1) / normPageSize f.PageSize = 0 :=
      Int.ediv_eq_zero_of_lt (by omega) (by omega)
    omega
  · intro resp db1 hok
    obtain ⟨hle, hdb, hresp⟩ := GetSongs_ok_inv env f db db1 resp hok
    obtain ⟨hex, hoff, hmul, -⟩ := page_in_range _ _ _ hn hn2 hs hs2 hp hle
    subst hresp
    refine ⟨hdb, hp, hle, hex, hoff, ?_⟩
    apply getSongsQuery_ne_nil env f db _ _ hs
    · rw [hmul]; exact Int.mul_nonneg (by omega) (by omega)
    · rw [hmul]; exact hoff

/-- C2 at a concrete store: page 3 of two songs with page size 1 is rejected. -/
theorem GetSongs_page_bounds_witness :
    quietEnv.fault .countSongs = none ∧ (twoSongs.rows.length : Int) ≤ maxInt ∧
    (emptyFilter 3 1).PageSize ≤ maxInt ∧
    ∃ e, PostgresSongRepository.GetSongs quietEnv (emptyFilter 3 1) twoSongs =
        (.err (.app e), twoSongs) ∧ e.Typ = NotFound :=
  ⟨rfl, by decide, by decide,
   (GetSongs_page_bounds quietEnv (emptyFilter 3 1) twoSongs rfl (by decide) (by decide)).1
     (by decide)⟩

/-! ## Defaults of page and page size -/

theorem whereFilter_setPage (env : Env) (f : SongFilter) (p : Int) :
    whereFilter env { f with Page := p } = whereFilter env f := rfl

theorem whereFilter_setPageSize (env : Env) (f : SongFilter) (q : Int) :
    whereFilter env { f with PageSize := q } = whereFilter env f := rfl

/-- Every successful `GetLyrics` loaded a song with non-empty text, passed the range
check and reports the normalised request and the joined slice of verses. -/
theorem GetLyrics_ok_inv {σ : Type} (repo : SongRepository σ) (id p q : Int) (st st1 : σ)
    (resp : LyricsResponse)
    (h : SongService.GetLyrics repo id p q st = (.ok resp, st1)) :
    ∃ song sel, repo.GetSongByID id st = (.ok song, st1) ∧ song.Text ≠ "" ∧
      normPage p ≤ goDiv (goSub (goAdd ((Split song.Text "\n\n").length : Int)
        (normPageSize q)) 1) (normPageSize q) ∧
      sliceBetween (Split song.Text "\n\n") (goMul (goSub (normPage p) 1) (normPageSize q))
        (if goAdd (goMul (goSub (normPage p) 1) (normPageSize q)) (normPageSize q) >
            ((Split song.Text "\n\n").length : Int)
         then ((Split song.Text "\n\n").length : Int)
         else goAdd (goMul (goSub (normPage p) 1) (normPageSize q)) (normPageSize q)) =
        some sel ∧
      resp = { Text := Join sel "\n\n", CurrentPage := normPage p
               TotalPages := goDiv (goSub (goAdd ((Split song.Text "\n\n").length : Int)
                 (normPageSize q)) 1) (normPageSize q)
               PageSize := normPageSize q } := by
  have eP : (if p ≤ 0 then (1 : Int) else p) = normPage p := rfl
  have eS : (if q ≤ 0 then (10 : Int) else q) = normPageSize q := rfl
  simp only [SongService.GetLyrics, eP, eS] at h
  generalize normPage p = P at h ⊢
  generalize normPageSize q = S at h ⊢
  split at h
  · simp at h
  · simp at h
  · rename_i song st2 hget
    split at h
    · simp at h
    · rename_i htext
      split at h
      · simp at h
      · rename_i hle
        split at h
        · simp at h
        · rename_i sel hsel
          simp only [Prod.mk.injEq, Result.ok.injEq] at h
          refine ⟨song, sel, ?_, htext, by simpa using hle, ?_, h.1.symm⟩
          · rw [hget, h.2]
          · rw [← hsel]

/-- C3: in `GetSongs` and in `GetLyrics` a requested page `p ≤ 0` gives the outcome of
page 1 and a requested page size `q ≤ 0` gives the outcome of page size 10; a
successful response then reports `CurrentPage = 1`, respectively `PageSize = 10`. -/
theorem nonpositive_request_defaults {σ : Type} (env : Env) (f : SongFilter) (db : DB)
    (repo : SongRepository σ) (st : σ) (id p q : Int) :
    (p ≤ 0 →
      PostgresSongRepository.GetSongs env { f with Page := p } db =
        PostgresSongRepository.GetSongs env { f with Page := 1 } db ∧
      SongService.GetLyrics repo id p q st = SongService.GetLyrics repo id 1 q st ∧
      (∀ resp db1, PostgresSongRepository.GetSongs env { f with Page := p } db =
        (.ok resp, db1) → resp.CurrentPage = 1) ∧
      (∀ resp st1, SongService.GetLyrics repo id p q st = (.ok resp, st1) →
        resp.CurrentPage = 1)) ∧
    (q ≤ 0 →
      PostgresSongRepository.GetSongs env { f with PageSize := q } db =
        PostgresSongRepository.GetSongs env { f with PageSize := 10 } db ∧
      SongService.GetLyrics repo id p q st = SongService.GetLyrics repo id p 10 st ∧
      (∀ resp db1, PostgresSongRepository.GetSongs env { f with PageSize := q } db =
        (.ok resp, db1) → resp.PageSize = 10) ∧
      (∀ resp st1, SongService.GetLyrics repo id p q st = (.ok resp, st1) →
        resp.PageSize = 10)) := by
  constructor
  · intro hp
    refine ⟨?_, ?_, ?_, ?_⟩
    · simp only [PostgresSongRepository.GetSongs, countSongsQuery, getSongsQuery,
        whereFilter_setPage, if_pos hp]
      simp
    · simp [SongService.GetLyrics, hp]
    · intro resp db1 hok
      have h := (GetSongs_ok_inv env _ db db1 resp hok).2.2
      rw [h]
      simp [normPage, hp]
    · intro resp st1 hok
      obtain ⟨song, sel, -, -, -, -, h⟩ := GetLyrics_ok_inv repo id p q st st1 resp hok
      rw [h]
      simp [normPage, hp]
  · intro hq
    refine ⟨?_, ?_, ?_, ?_⟩
    · simp only [PostgresSongRepository.GetSongs, countSongsQuery, getSongsQuery,
        whereFilter_setPageSize, if_pos hq]
      simp
    · simp [SongService.GetLyrics, hq]
    · intro resp db1 hok
      have h := (GetSongs_ok_inv env _ db db1 resp hok).2.2
      rw [h]
      simp [normPageSize, hq]
    · intro resp st1 hok
      obtain ⟨song, sel, -, -, -, -, h⟩ := GetLyrics_ok_inv repo id p q st st1 resp hok
      rw [h]
      simp [normPageSize, hq]

/-- C3 at concrete requests: page -3 of the listing behaves as page 1, and page
size 0 of the lyrics behaves as page size 10. -/
theorem nonpositive_request_defaults_witness :
    (-3 : Int) ≤ 0 ∧ (0 : Int) ≤ 0 ∧
    PostgresSongRepository.GetSongs quietEnv { emptyFilter 0 1 with Page := -3 } twoSongs =
      PostgresSongRepository.GetSongs quietEnv { emptyFilter 0 1 with Page := 1 } twoSongs ∧
    SongService.GetLyrics (catalog quietEnv) 1 (-3) 0 twoSongs =
      SongService.GetLyrics (catalog quietEnv) 1 (-3) 10 twoSongs :=
  ⟨by decide, by decide,
   ((nonpositive_request_defaults quietEnv (emptyFilter 0 1) twoSongs (catalog quietEnv)
      twoSongs 1 (-3) 0).1 (by decide)).1,
   ((nonpositive_request_defaults quietEnv (emptyFilter 0 1) twoSongs (catalog quietEnv)
      twoSongs 1 (-3) 0).2 (by decide)).2.1⟩

/-! ## Lyric pagination -/

/-- C4 (defect in the page count): on the two-verse text "A\n\nB" with the largest page
size the sum `len(verses) + pageSize - 1` wraps around, `GetLyrics` computes -1 total
pages and rejects page 1 as out of range, although `ceil(2 / pageSize)` is 1 and the
page holds both verses. -/
theorem GetLyrics_pageCount_wraps :
    Split "A\n\nB" "\n\n" = ["A", "B"] ∧
    normPage 1 ≤ ceilDiv 2 (normPageSize 9223372036854775807) ∧
    SongService.GetLyrics (catalog quietEnv) 1 1 9223372036854775807 (lyricsDB "A\n\nB") =
      (.err (.app (NewNotFound "page out of range" none)), lyricsDB "A\n\nB") := by
  refine ⟨by decide, ?_, by decide⟩
  rw [ceilDiv_eq _ _ (by decide)]
  decide

/-- The pages of the text "A\n\nB\n\nC": one verse per page gives "A", "B", "C" and no
fourth page; two verses per page give "A\n\nB" and "C". -/
theorem GetLyrics_three_verses :
    (SongService.GetLyrics (catalog quietEnv) 1 1 1 (lyricsDB "A\n\nB\n\nC")).1 =
      .ok { Text := "A", CurrentPage := 1, TotalPages := 3, PageSize := 1 } ∧
    (SongService.GetLyrics (catalog quietEnv) 1 2 1 (lyricsDB "A\n\nB\n\nC")).1 =
      .ok { Text := "B", CurrentPage := 2, TotalPages := 3, PageSize := 1 } ∧
    (SongService.GetLyrics (catalog quietEnv) 1 3 1 (lyricsDB "A\n\nB\n\nC")).1 =
      .ok { Text := "C", CurrentPage := 3, TotalPages := 3, PageSize := 1 } ∧
    (SongService.GetLyrics (catalog quietEnv) 1 4 1 (lyricsDB "A\n\nB\n\nC")).1 =
      .err (.app (NewNotFound "page out of range" none)) ∧
    (SongService.GetLyrics (catalog quietEnv) 1 1 2 (lyricsDB "A\n\nB\n\nC")).1 =
      .ok { Text := "A\n\nB", CurrentPage := 1, TotalPages := 2, PageSize := 2 } ∧
    (SongService.GetLyrics (catalog quietEnv) 1 2 2 (lyricsDB "A\n\nB\n\nC")).1 =
      .ok { Text := "C", CurrentPage := 2, TotalPages := 2, PageSize := 2 } := by
  refine ⟨by decide, by decide, by decide, by decide, by decide, by decide⟩

/-- Without wrap-around of `len(verses) + pageSize - 1`, `GetLyrics` on a song with
non-empty text returns the verses `v[(p-1)*s .. min(p*s, n))` joined by the separator
when `p ≤ ceil(n / s)` and fails with `NotFound` otherwise, for the normalised page
`p`, the normalised page size `s` and the verse count `n`. -/
theorem GetLyrics_in_range {σ : Type} (repo : SongRepository σ) (id p q : Int)
    (st st1 : σ) (song : Song)
    (hget : repo.GetSongByID id st = (.ok song, st1)) (htext : song.Text ≠ "")
    (hq : q ≤ maxInt)
    (hfit : ((Split song.Text "\n\n").length : Int) + normPageSize q - 1 ≤ maxInt) :
    (normPage p ≤ ceilDiv ((Split song.Text "\n\n").length : Int) (normPageSize q) →
      SongService.GetLyrics repo id p q st =
        (.ok { Text := Join (((Split song.Text "\n\n").drop
                  ((normPage p - 1) * normPageSize q).toNat).take
                  ((min (normPage p * normPageSize q)
                      ((Split song.Text "\n\n").length : Int)).toNat -
                    ((normPage p - 1) * normPageSize q).toNat)) "\n\n"
               CurrentPage := normPage p
               TotalPages := ceilDiv ((Split song.Text "\n\n").length : Int) (normPageSize q)
               PageSize := normPageSize q }, st1)) ∧
    (ceilDiv ((Split song.Text "\n\n").length : Int) (normPageSize q) < normPage p →
      SongService.GetLyrics repo id p q st =
        (.err (.app (NewNotFound "page out of range" none)), st1)) := by
  unfold maxInt at hfit hq
  have eP : (if p ≤ 0 then (1 : Int) else p) = normPage p := rfl
  have eS : (if q ≤ 0 then (10 : Int) else q) = normPageSize q := rfl
  have hs := normPageSize_pos q
  have hs2 := normPageSize_le q hq
  have hp := normPage_pos p
  have hn : (0 : Int) ≤ ((Split song.Text "\n\n").length : Int) := by omega
  have hex := pageCount_exact _ _ hn hs hfit
  simp only [SongService.GetLyrics, hget, htext, eP, eS, if_false, hex]
  generalize normPage p = P at hp ⊢
  generalize normPageSize q = S at hs hs2 hfit hex ⊢
  generalize (Split song.Text "\n\n") = verses at hn hfit hex ⊢
  constructor
  · intro hle
    rw [if_neg (by omega)]
    have hle2 : P ≤ goDiv (goSub (goAdd (verses.length : Int) S) 1) S := by
      rw [hex]; exact hle
    obtain ⟨-, hoff, hmul, -⟩ :=
      page_in_range _ _ _ hn (by omega) hs (by omega) hp hle2
    have hnn : 0 ≤ (P - 1) * S := Int.mul_nonneg (by omega) (by omega)
    have hend : goAdd ((P - 1) * S) S = P * S := by
      unfold goAdd
      have : (P - 1) * S + S = P * S := by ring
      rw [this]
      exact wrapInt_of_range _ (by nlinarith) (by nlinarith)
    rw [hmul, hend]
    have hmin : (if P * S > (verses.length : Int) then (verses.length : Int) else P * S) =
        min (P * S) (verses.length : Int) := by
      rw [min_def]; split <;> split <;> omega
    rw [hmin]
    have hcond : 0 ≤ (P - 1) * S ∧ (P - 1) * S ≤ min (P * S) (verses.length : Int) ∧
        min (P * S) (verses.length : Int) ≤ (verses.length : Int) := by
      refine ⟨hnn, ?_, min_le_right _ _⟩
      apply le_min
      · nlinarith
      · omega
    simp only [sliceBetween, if_pos hcond]
  · intro hgt
    rw [if_pos (by omega)]

/-! ## The lyrics-absent error -/

/-- C5 (as stated, refuted): the error built by `NewLyricsNotFound` is the same value
as the error built by `NewNotFound` from the same message and cause. -/
theorem NewLyricsNotFound_same_as_NewNotFound :
    NewLyricsNotFound "lyrics not found" none = NewNotFound "lyrics not found" none ∧
    ¬ (∀ (m : String) (e : Option Cause), NewLyricsNotFound m e ≠ NewNotFound m e) :=
  ⟨rfl, fun h => h "lyrics not found" none rfl⟩

/-- C5 (amended): for every stored song whose text is empty and every page and page
size, `GetLyrics` fails with the application error of kind `NotFound`, message
"lyrics not found" and no cause.  `NewLyricsNotFound` builds the same value as
`NewNotFound`; the error is told apart from the song-absent error of the
repository and from the page-out-of-range error by its message only. -/
theorem GetLyrics_empty_text {σ : Type} (repo : SongRepository σ) (id page pageSize : Int)
    (st st1 : σ) (song : Song)
    (hget : repo.GetSongByID id st = (.ok song, st1)) (htext : song.Text = "") :
    SongService.GetLyrics repo id page pageSize st =
      (.err (.app (NewLyricsNotFound "lyrics not found" none)), st1) ∧
    (NewLyricsNotFound "lyrics not found" none).Typ = NotFound ∧
    (∀ (m : String) (e : Option Cause), NewLyricsNotFound m e = NewNotFound m e) ∧
    NewLyricsNotFound "lyrics not found" none ≠ NewNotFound "song not found" (some .ErrNoRows) ∧
    NewLyricsNotFound "lyrics not found" none ≠ NewNotFound "page out of range" none := by
  refine ⟨?_, rfl, fun _ _ => rfl, by decide, by decide⟩
  simp only [SongService.GetLyrics, hget, htext, if_true]

/-- C5 (amended) at a stored song without lyrics. -/
theorem GetLyrics_empty_text_witness :
    (catalog quietEnv).GetSongByID 1 (lyricsDB "") = (.ok (mkSong 1 "g" "t" ""), lyricsDB "") ∧
    (mkSong 1 "g" "t" "").Text = "" ∧
    SongService.GetLyrics (catalog quietEnv) 1 2 5 (lyricsDB "") =
      (.err (.app (NewLyricsNotFound "lyrics not found" none)), lyricsDB "") :=
  ⟨by decide, by decide,
   (GetLyrics_empty_text (catalog quietEnv) 1 2 5 (lyricsDB "") (lyricsDB "")
      (mkSong 1 "g" "t" "") (by decide) (by decide)).1⟩

/-! ## Creating a song -/

theorem checkSongExistsForCreateQuery_iff (group song : String) (db : DB) :
    checkSongExistsForCreateQuery group song db = true ↔
      ∃ r ∈ db.rows, r.GroupName = group ∧ r.SongName = song := by
  simp [checkSongExistsForCreateQuery, List.any_eq_true]

/-- C6: when the existence check itself is answered by the store and some stored
song has the (group, title) pair of the create request, `CreateSong` fails with an
error of kind `AlreadyExists`, returns no song, and leaves the store unchanged. -/
theorem CreateSong_duplicate (env : Env) (req : SongRequest) (db : DB)
    (hcheck : env.fault .checkSongExistsForCreate = none)
    (hdup : ∃ r ∈ db.rows, r.GroupName = req.GroupName ∧ r.SongName = req.SongName) :
    SongService.CreateSong (catalog env) env.timeNow req db =
      (.err (.app (NewAlreadyExists
        "song with this group name and song name already exists" none)), db) ∧
    (NewAlreadyExists "song with this group name and song name already exists" none).Typ =
      AlreadyExists := by
  refine ⟨?_, rfl⟩
  have hex : checkSongExistsForCreateQuery req.GroupName req.SongName db = true :=
    (checkSongExistsForCreateQuery_iff _ _ _).2 hdup
  simp only [SongService.CreateSong, catalog, NewPostgresSongRepository,
    PostgresSongRepository.CreateSong, hcheck, hex, if_true]

/-- C6 at a concrete store: creating ("g", "t") again is refused. -/
theorem CreateSong_duplicate_witness :
    quietEnv.fault .checkSongExistsForCreate = none ∧
    (∃ r ∈ twoSongs.rows, r.GroupName = (mkRequest "g" "t" "x" "y").GroupName ∧
      r.SongName = (mkRequest "g" "t" "x" "y").SongName) ∧
    SongService.CreateSong (catalog quietEnv) quietEnv.timeNow (mkRequest "g" "t" "x" "y")
      twoSongs =
      (.err (.app (NewAlreadyExists
        "song with this group name and song name already exists" none)), twoSongs) :=
  ⟨rfl, ⟨mkSong 1 "g" "t" "A\n\nB", by decide, by decide, by decide⟩,
   (CreateSong_duplicate quietEnv (mkRequest "g" "t" "x" "y") twoSongs rfl
      ⟨mkSong 1 "g" "t" "A\n\nB", by decide, by decide, by decide⟩).1⟩

theorem varchar255_short (s : String) (h : s.length ≤ 255) : varchar255 s = some s := by
  unfold varchar255
  rw [if_pos h]

theorem violatesUnique_iff (row : Song) (db : DB) :
    violatesUnique row db = true ↔
      ∃ r ∈ db.rows, r.GroupName = row.GroupName ∧ r.SongName = row.SongName := by
  simp [violatesUnique, List.any_eq_true]

/-- What the columns keep of the record sent by the insert. -/
theorem createdRow_some (env : Env) (song row : Song) (db : DB)
    (h : createdRow env song db = some row) :
    varchar255 song.GroupName = some row.GroupName ∧
    varchar255 song.SongName = some row.SongName ∧
    varchar255 song.Link = some row.Link ∧ row.Text = song.Text ∧
    row.ReleaseDate = env.timestampColumn song.ReleaseDate ∧ row.ID = db.nextID ∧
    row.CreatedAt = env.NOW ∧ row.UpdatedAt = env.NOW := by
  unfold createdRow at h
  split at h
  · rename_i group title link hg ht hl
    simp only [Option.some.injEq] at h
    subst h
    exact ⟨hg, ht, hl, rfl, rfl, rfl, rfl, rfl⟩
  · simp at h

/-- An accepted insert appends the row the columns keep, and that row breaks no
uniqueness. -/
theorem createSongQuery_ok (env : Env) (song row : Song) (db db1 : DB)
    (h : createSongQuery env song db = .ok (row, db1)) :
    createdRow env song db = some row ∧ violatesUnique row db = false ∧
      db1 = { rows := db.rows ++ [row], nextID := db.nextID + 1 } := by
  unfold createSongQuery at h
  split at h
  · simp at h
  · rename_i row0 hrow
    split at h
    · simp at h
    · rename_i hv
      simp only [Except.ok.injEq, Prod.mk.injEq] at h
      obtain ⟨h1, h2⟩ := h
      subst h1
      exact ⟨hrow, by simpa using hv, h2.symm⟩

/-- Every successful `CreateSong` returns what the insert returned. -/
theorem CreateSong_ok_inv (env : Env) (req : SongRequest) (db db1 : DB) (row : Song)
    (h : SongService.CreateSong (catalog env) env.timeNow req db = (.ok row, db1)) :
    createSongQuery env (requestedSong env.timeNow req) db = .ok (row, db1) := by
  have e : SongService.CreateSong (catalog env) env.timeNow req db =
      PostgresSongRepository.CreateSong env (requestedSong env.timeNow req) db := rfl
  rw [e] at h
  unfold PostgresSongRepository.CreateSong at h
  split at h
  · simp [internalErr] at h
  · split at h
    · simp at h
    · split at h
      · simp [internalErr] at h
      · split at h
        · simp [internalErr] at h
        · rename_i row0 db0 hq
          simp only [Prod.mk.injEq, Result.ok.injEq] at h
          rw [hq, h.1, h.2]

set_option maxRecDepth 100000 in
/-- C7 (as stated, refuted): with no matching pair and no failing round trip
`CreateSong` succeeds, yet the returned record is the one scanned back from the
table.  Its release timestamp is the time read at the call rounded by the `TIMESTAMP`
column, here 1700000000123457000 against the 1700000000123456789 read; and a group
name of 255 letters and one trailing space comes back cut to 255 characters. -/
theorem CreateSong_returns_column_values :
    microEnv.fault .checkSongExistsForCreate = none ∧ microEnv.fault .createSong = none ∧
    (¬ ∃ r ∈ twoSongs.rows, r.GroupName = (mkRequest "g" "v" "x" "y").GroupName ∧
      r.SongName = (mkRequest "g" "v" "x" "y").SongName) ∧
    (SongService.CreateSong (catalog microEnv) microEnv.timeNow (mkRequest "g" "v" "x" "y")
      twoSongs).1 =
      .ok { ID := 3, GroupName := "g", SongName := "v", ReleaseDate := 1700000000123457000,
            Text := "x", Link := "y", CreatedAt := 1700000000200000000,
            UpdatedAt := 1700000000200000000 } ∧
    (1700000000123457000 : Int) ≠ microEnv.timeNow ∧
    (¬ ∃ r ∈ twoSongs.rows, r.GroupName = (mkRequest longGroup "v" "x" "y").GroupName ∧
      r.SongName = (mkRequest longGroup "v" "x" "y").SongName) ∧
    (SongService.CreateSong (catalog microEnv) microEnv.timeNow
      (mkRequest longGroup "v" "x" "y") twoSongs).1 =
      .ok { ID := 3, GroupName := String.mk (List.replicate 255 'a'), SongName := "v",
            ReleaseDate := 1700000000123457000, Text := "x", Link := "y",
            CreatedAt := 1700000000200000000, UpdatedAt := 1700000000200000000 } ∧
    String.mk (List.replicate 255 'a') ≠ (mkRequest longGroup "v" "x" "y").GroupName := by
  refine ⟨rfl, rfl, by decide, by decide, by decide, by decide, by decide, by decide⟩

/-- C7 (amended): when no stored song has the (group, title) pair of the request and
neither the existence check nor the insert round trip fails, a request whose group,
title and link have at most 255 characters succeeds: the table is the old table
followed by exactly one new row, that row is returned, its group, title, text and
link are those of the request, and its release timestamp is the time read by the
service at the call as the `TIMESTAMP` column keeps it (equal to the time read when
the column keeps that time unchanged); id and store timestamps are assigned by the
store.  Every successful `CreateSong` returns the stored row: group, title and link
as `VARCHAR(255)` keeps them, the text as sent, the release timestamp as the column
keeps the time read. -/
theorem CreateSong_returns_stored_row (env : Env) (req : SongRequest) (db : DB)
    (hcheck : env.fault .checkSongExistsForCreate = none)
    (hinsert : env.fault .createSong = none)
    (hfresh : ¬ ∃ r ∈ db.rows, r.GroupName = req.GroupName ∧ r.SongName = req.SongName) :
    (req.GroupName.length ≤ 255 → req.SongName.length ≤ 255 → req.Link.length ≤ 255 →
      ∃ row db1, SongService.CreateSong (catalog env) env.timeNow req db = (.ok row, db1) ∧
        db1.rows = db.rows ++ [row] ∧ db1.rows.length = db.rows.length + 1 ∧
        (∀ r ∈ db.rows, r ∈ db1.rows) ∧
        row.GroupName = req.GroupName ∧ row.SongName = req.SongName ∧
        row.Text = req.Text ∧ row.Link = req.Link ∧
        row.ReleaseDate = env.timestampColumn env.timeNow ∧
        (env.timestampColumn env.timeNow = env.timeNow → row.ReleaseDate = env.timeNow) ∧
        row.ID = db.nextID ∧ row.CreatedAt = env.NOW ∧ row.UpdatedAt = env.NOW) ∧
    (∀ row db1, SongService.CreateSong (catalog env) env.timeNow req db = (.ok row, db1) →
      db1.rows = db.rows ++ [row] ∧
      varchar255 req.GroupName = some row.GroupName ∧
      varchar255 req.SongName = some row.SongName ∧
      varchar255 req.Link = some row.Link ∧ row.Text = req.Text ∧
      row.ReleaseDate = env.timestampColumn env.timeNow ∧
      row.ID = db.nextID ∧ row.CreatedAt = env.NOW ∧ row.UpdatedAt = env.NOW) := by
  have hex : checkSongExistsForCreateQuery req.GroupName req.SongName db = false := by
    rw [← Bool.not_eq_true, checkSongExistsForCreateQuery_iff]
    exact hfresh
  constructor
  · intro hg ht hl
    have hrow0 : ∃ row, createdRow env (requestedSong env.timeNow req) db = some row ∧
        row.GroupName = req.GroupName ∧ row.SongName = req.SongName ∧
        row.Link = req.Link := by
      have hg2 : varchar255 (requestedSong env.timeNow req).GroupName = some req.GroupName :=
        varchar255_short _ hg
      have ht2 : varchar255 (requestedSong env.timeNow req).SongName = some req.SongName :=
        varchar255_short _ ht
      have hl2 : varchar255 (requestedSong env.timeNow req).Link = some req.Link :=
        varchar255_short _ hl
      simp only [createdRow, hg2, ht2, hl2]
      exact ⟨_, rfl, rfl, rfl, rfl⟩
    obtain ⟨row, hrow, hg1, ht1, hl1⟩ := hrow0
    obtain ⟨-, -, -, htext, hrel, hid, hc, hu⟩ := createdRow_some env _ row db hrow
    have hviol : violatesUnique row db = false := by
      rw [← Bool.not_eq_true, violatesUnique_iff, hg1, ht1]
      exact hfresh
    have hq : createSongQuery env (requestedSong env.timeNow req) db =
        .ok (row, { rows := db.rows ++ [row], nextID := db.nextID + 1 }) := by
      simp only [createSongQuery, hrow, hviol]
      rfl
    have hres : SongService.CreateSong (catalog env) env.timeNow req db =
        (.ok row, { rows := db.rows ++ [row], nextID := db.nextID + 1 }) := by
      have e : SongService.CreateSong (catalog env) env.timeNow req db =
          PostgresSongRepository.CreateSong env (requestedSong env.timeNow req) db := rfl
      have hex2 : checkSongExistsForCreateQuery (requestedSong env.timeNow req).GroupName
          (requestedSong env.timeNow req).SongName db = false := hex
      rw [e]
      simp only [PostgresSongRepository.CreateSong, hcheck, hinsert, hex2, hq]
      rfl
    have hrel2 : row.ReleaseDate = env.timestampColumn env.timeNow := hrel
    refine ⟨row, _, hres, rfl, by simp, ?_, hg1, ht1, htext, hl1, hrel2,
      fun h => hrel2.trans h, hid, hc, hu⟩
    intro r hr
    simp [hr]
  · intro row db1 hok
    obtain ⟨hrow, -, hdb⟩ := createSongQuery_ok env _ row db db1 (CreateSong_ok_inv env req db db1 row hok)
    obtain ⟨hg, ht, hl, htext, hrel, hid, hc, hu⟩ := createdRow_some env _ row db hrow
    refine ⟨by rw [hdb], hg, ht, hl, htext, hrel, hid, hc, hu⟩

/-- C7 (amended) at a concrete store: creating ("g", "v") appends the row with id 3
and the request's fields. -/
theorem CreateSong_returns_stored_row_witness :
    quietEnv.fault .checkSongExistsForCreate = none ∧ quietEnv.fault .createSong = none ∧
    (¬ ∃ r ∈ twoSongs.rows, r.GroupName = (mkRequest "g" "v" "x" "y").GroupName ∧
      r.SongName = (mkRequest "g" "v" "x" "y").SongName) ∧
    (mkRequest "g" "v" "x" "y").GroupName.length ≤ 255 ∧
    ∃ row db1, SongService.CreateSong (catalog quietEnv) quietEnv.timeNow
        (mkRequest "g" "v" "x" "y") twoSongs = (.ok row, db1) ∧
      db1.rows = twoSongs.rows ++ [row] :=
  ⟨rfl, rfl, by decide, by decide,
   ((CreateSong_returns_stored_row quietEnv (mkRequest "g" "v" "x" "y") twoSongs rfl rfl
      (by decide)).1 (by decide) (by decide) (by decide)).imp
     (fun _ h => h.imp (fun _ h2 => ⟨h2.1, h2.2.1⟩))⟩

/-! ## Updating a song -/

theorem checkSongExistsQuery_iff (group song : String) (id : Int) (db : DB) :
    checkSongExistsQuery group song id db = true ↔
      ∃ r ∈ db.rows, r.GroupName = group ∧ r.SongName = song ∧ r.ID ≠ id := by
  simp [checkSongExistsQuery, List.any_eq_true, and_assoc]

theorem getSongByIDQuery_some (id : Int) (db : DB) (song : Song)
    (h : getSongByIDQuery id db = some song) : song ∈ db.rows ∧ song.ID = id := by
  unfold getSongByIDQuery at h
  exact ⟨List.mem_of_find?_eq_some h, by simpa using List.find?_some h⟩

theorem mergeRequest_ID (now : Time) (req : SongRequest) (song : Song) :
    (mergeRequest now req song).ID = song.ID := by
  unfold mergeRequest; split <;> split <;> split <;> split <;> rfl

theorem mergeRequest_ReleaseDate (now : Time) (req : SongRequest) (song : Song) :
    (mergeRequest now req song).ReleaseDate = song.ReleaseDate := by
  unfold mergeRequest; split <;> split <;> split <;> split <;> rfl

theorem mergeRequest_CreatedAt (now : Time) (req : SongRequest) (song : Song) :
    (mergeRequest now req song).CreatedAt = song.CreatedAt := by
  unfold mergeRequest; split <;> split <;> split <;> split <;> rfl

theorem mergeRequest_GroupName (now : Time) (req : SongRequest) (song : Song) :
    (mergeRequest now req song).GroupName =
      if req.GroupName ≠ "" then req.GroupName else song.GroupName := by
  unfold mergeRequest; split <;> split <;> split <;> split <;> rfl

theorem mergeRequest_SongName (now : Time) (req : SongRequest) (song : Song) :
    (mergeRequest now req song).SongName =
      if req.SongName ≠ "" then req.SongName else song.SongName := by
  unfold mergeRequest; split <;> split <;> split <;> split <;> rfl

theorem mergeRequest_Text (now : Time) (req : SongRequest) (song : Song) :
    (mergeRequest now req song).Text =
      if req.Text ≠ "" then req.Text else song.Text := by
  unfold mergeRequest; split <;> split <;> split <;> split <;> rfl

theorem mergeRequest_Link (now : Time) (req : SongRequest) (song : Song) :
    (mergeRequest now req song).Link =
      if req.Link ≠ "" then req.Link else song.Link := by
  unfold mergeRequest; split <;> split <;> split <;> split <;> rfl

theorem updatedRow_ID (env : Env) (m r : Song) : (updatedRow env m r).ID = r.ID := by
  unfold updatedRow; split <;> rfl

/-- The row returned by `updateSongQuery` is the update of the row found by id. -/
theorem find_updatedRow (env : Env) (m song : Song) (rows : List Song)
    (h : rows.find? (fun s => s.ID == m.ID) = some song) :
    (rows.map (updatedRow env m)).find? (fun r => r.ID == m.ID) =
      some (updatedRow env m song) := by
  induction rows with
  | nil => simp at h
  | cons r rest ih =>
    by_cases hr : r.ID = m.ID
    · have : r = song := by simpa [List.find?_cons, hr] using h
      subst this
      simp [List.find?_cons, updatedRow_ID, hr]
    · have h2 : rest.find? (fun s => s.ID == m.ID) = some song := by
        simpa [List.find?_cons, hr] using h
      simp [List.find?_cons, updatedRow_ID, hr, ih h2]

/-- Outcome of `UpdateSong` when the song is stored, the store answers and the
uniqueness check finds no other song with the resulting pair. -/
theorem UpdateSong_accepted (env : Env) (id : Int) (req : SongRequest) (db : DB) (song : Song)
    (hf1 : env.fault .getSongByID = none) (hf2 : env.fault .checkSongExists = none)
    (hf3 : env.fault .updateSong = none)
    (hget : getSongByIDQuery id db = some song)
    (hcheck : checkSongExistsQuery (mergeRequest env.timeNow req song).GroupName
      (mergeRequest env.timeNow req song).SongName id db = false) :
    SongService.UpdateSong (catalog env) env.timeNow id req db =
      (.ok (updatedRow env (mergeRequest env.timeNow req song) song),
       { db with rows := db.rows.map (updatedRow env (mergeRequest env.timeNow req song)) }) := by
  have hid := (getSongByIDQuery_some id db song hget).2
  have hmid : (mergeRequest env.timeNow req song).ID = id := by
    rw [mergeRequest_ID, hid]
  have hfind : (db.rows.map (updatedRow env (mergeRequest env.timeNow req song))).find?
      (fun r => r.ID == (mergeRequest env.timeNow req song).ID) =
      some (updatedRow env (mergeRequest env.timeNow req song) song) := by
    apply find_updatedRow
    rw [hmid]; exact hget
  rw [hmid] at hfind
  simp only [SongService.UpdateSong, catalog, NewPostgresSongRepository,
    PostgresSongRepository.GetSongByID, PostgresSongRepository.UpdateSong, hf1, hf2, hf3,
    hget, hmid, hcheck, updateSongQuery, hfind]
  simp

/-- Every successful `UpdateSong` loaded the song, passed the uniqueness check and
wrote the merged record. -/
theorem UpdateSong_ok_inv (env : Env) (id : Int) (req : SongRequest) (db db1 : DB)
    (row : Song)
    (h : SongService.UpdateSong (catalog env) env.timeNow id req db = (.ok row, db1)) :
    ∃ song, getSongByIDQuery id db = some song ∧
      checkSongExistsQuery (mergeRequest env.timeNow req song).GroupName
        (mergeRequest env.timeNow req song).SongName id db = false ∧
      row = updatedRow env (mergeRequest env.timeNow req song) song ∧
      db1 = { db with rows := db.rows.map (updatedRow env (mergeRequest env.timeNow req song)) } := by
  cases hf1 : env.fault .getSongByID with
  | some m =>
    simp [SongService.UpdateSong, catalog, NewPostgresSongRepository,
      PostgresSongRepository.GetSongByID, hf1, internalErr] at h
  | none =>
    cases hget : getSongByIDQuery id db with
    | none =>
      simp [SongService.UpdateSong, catalog, NewPostgresSongRepository,
        PostgresSongRepository.GetSongByID, hf1, hget] at h
    | some song =>
      have hid := (getSongByIDQuery_some id db song hget).2
      have hmid : (mergeRequest env.timeNow req song).ID = id := by
        rw [mergeRequest_ID, hid]
      refine ⟨song, rfl, ?_⟩
      cases hf2 : env.fault .checkSongExists with
      | some m =>
        simp [SongService.UpdateSong, catalog, NewPostgresSongRepository,
          PostgresSongRepository.GetSongByID, PostgresSongRepository.UpdateSong, hf1, hget,
          hf2, internalErr] at h
      | none =>
        cases hcheck : checkSongExistsQuery (mergeRequest env.timeNow req song).GroupName
            (mergeRequest env.timeNow req song).SongName id db with
        | true =>
          simp [SongService.UpdateSong, catalog, NewPostgresSongRepository,
            PostgresSongRepository.GetSongByID, PostgresSongRepository.UpdateSong, hf1, hget,
            hf2, hmid, hcheck] at h
        | false =>
          cases hf3 : env.fault .updateSong with
          | some m =>
            simp [SongService.UpdateSong, catalog, NewPostgresSongRepository,
              PostgresSongRepository.GetSongByID, PostgresSongRepository.UpdateSong, hf1,
              hget, hf2, hmid, hcheck, hf3, internalErr] at h
          | none =>
            have hacc := UpdateSong_accepted env id req db song hf1 hf2 hf3 hget hcheck
            rw [hacc] at h
            simp only [Prod.mk.injEq, Result.ok.injEq] at h
            exact ⟨rfl, h.1.symm, h.2.symm⟩

/-- C8: on a store with unique (group, title) pairs that answers its queries, for a
stored song `id`: if the pair resulting from the update is the pair of a stored song
with another id, `UpdateSong` fails with `AlreadyExists` and the store is unchanged; if
the request repeats the song's own group and title or leaves them empty, the
uniqueness check lets the update through and `UpdateSong` succeeds. -/
theorem UpdateSong_uniqueness (env : Env) (id : Int) (req : SongRequest) (db : DB)
    (song : Song)
    (hf1 : env.fault .getSongByID = none) (hf2 : env.fault .checkSongExists = none)
    (hf3 : env.fault .updateSong = none) (huniq : UniquePairs db)
    (hget : getSongByIDQuery id db = some song) :
    ((∃ r ∈ db.rows, r.ID ≠ id ∧
        r.GroupName = (mergeRequest env.timeNow req song).GroupName ∧
        r.SongName = (mergeRequest env.timeNow req song).SongName) →
      SongService.UpdateSong (catalog env) env.timeNow id req db =
        (.err (.app (NewAlreadyExists
          "song with this group name and song name already exists" none)), db) ∧
      (NewAlreadyExists "song with this group name and song name already exists" none).Typ =
        AlreadyExists) ∧
    ((req.GroupName = "" ∨ req.GroupName = song.GroupName) →
      (req.SongName = "" ∨ req.SongName = song.SongName) →
      checkSongExistsQuery (mergeRequest env.timeNow req song).GroupName
        (mergeRequest env.timeNow req song).SongName id db = false ∧
      ∃ row db1, SongService.UpdateSong (catalog env) env.timeNow id req db =
        (.ok row, db1)) := by
  obtain ⟨hmem, hid⟩ := getSongByIDQuery_some id db song hget
  have hmid : (mergeRequest env.timeNow req song).ID = id := by
    rw [mergeRequest_ID, hid]
  constructor
  · rintro ⟨r, hr, hne, hg, hn⟩
    refine ⟨?_, rfl⟩
    have hex : checkSongExistsQuery (mergeRequest env.timeNow req song).GroupName
        (mergeRequest env.timeNow req song).SongName id db = true :=
      (checkSongExistsQuery_iff _ _ _ _).2 ⟨r, hr, hg, hn, hne⟩
    simp only [SongService.UpdateSong, catalog, NewPostgresSongRepository,
      PostgresSongRepository.GetSongByID, PostgresSongRepository.UpdateSong, hf1, hf2,
      hget, hmid, hex, if_true]
  · intro hg hn
    have hg2 : (mergeRequest env.timeNow req song).GroupName = song.GroupName := by
      rw [mergeRequest_GroupName]
      rcases hg with h | h
      · simp [h]
      · split
        · exact h
        · rfl
    have hn2 : (mergeRequest env.timeNow req song).SongName = song.SongName := by
      rw [mergeRequest_SongName]
      rcases hn with h | h
      · simp [h]
      · split
        · exact h
        · rfl
    have hcheck : checkSongExistsQuery (mergeRequest env.timeNow req song).GroupName
        (mergeRequest env.timeNow req song).SongName id db = false := by
      rw [← Bool.not_eq_true, checkSongExistsQuery_iff]
      rintro ⟨r, hr, hrg, hrn, hne⟩
      have hsym : Symmetric (fun a b : Song =>
          ¬ (a.GroupName = b.GroupName ∧ a.SongName = b.SongName)) :=
        fun a b hab hba => hab ⟨hba.1.symm, hba.2.symm⟩
      have hrs : r ≠ song := fun heq => hne (by rw [heq, hid])
      exact List.Pairwise.forall hsym huniq hr hmem hrs ⟨by rw [hrg, hg2], by rw [hrn, hn2]⟩
    exact ⟨hcheck, _, _, UpdateSong_accepted env id req db song hf1 hf2 hf3 hget hcheck⟩

/-- C8 at a concrete store: renaming song 1 to the title of song 2 is refused, and
repeating its own title is accepted. -/
theorem UpdateSong_uniqueness_witness :
    UniquePairs abStore ∧
    getSongByIDQuery 1 abStore = some songAB ∧
    SongService.UpdateSong (catalog quietEnv) quietEnv.timeNow 1 (mkRequest "" "D" "" "")
      abStore =
      (.err (.app (NewAlreadyExists
        "song with this group name and song name already exists" none)), abStore) ∧
    ∃ row db1, SongService.UpdateSong (catalog quietEnv) quietEnv.timeNow 1
      (mkRequest "" "B" "" "") abStore = (.ok row, db1) :=
  ⟨by unfold UniquePairs; decide, by decide,
   ((UpdateSong_uniqueness quietEnv 1 (mkRequest "" "D" "" "") abStore songAB rfl rfl rfl
      (by unfold UniquePairs; decide) (by decide)).1
      ⟨songAD, by decide, by decide, by decide, by decide⟩).1,
   ((UpdateSong_uniqueness quietEnv 1 (mkRequest "" "B" "" "") abStore songAB rfl rfl rfl
      (by unfold UniquePairs; decide) (by decide)).2 (by decide) (by decide)).2⟩

/-- C9: for a stored song and an update request that passes the uniqueness check
(the store answering its queries), `UpdateSong` writes and returns a record whose
group, title, text and link each equal the request's value when that value is a
non-empty string and the stored value when it is empty. -/
theorem UpdateSong_merge (env : Env) (id : Int) (req : SongRequest) (db : DB) (song : Song)
    (hf1 : env.fault .getSongByID = none) (hf2 : env.fault .checkSongExists = none)
    (hf3 : env.fault .updateSong = none)
    (hget : getSongByIDQuery id db = some song)
    (hcheck : checkSongExistsQuery (mergeRequest env.timeNow req song).GroupName
      (mergeRequest env.timeNow req song).SongName id db = false) :
    ∃ row db1, SongService.UpdateSong (catalog env) env.timeNow id req db = (.ok row, db1) ∧
      row ∈ db1.rows ∧
      row.GroupName = (if req.GroupName ≠ "" then req.GroupName else song.GroupName) ∧
      row.SongName = (if req.SongName ≠ "" then req.SongName else song.SongName) ∧
      row.Text = (if req.Text ≠ "" then req.Text else song.Text) ∧
      row.Link = (if req.Link ≠ "" then req.Link else song.Link) := by
  obtain ⟨hmem, hid⟩ := getSongByIDQuery_some id db song hget
  have hmid : song.ID = (mergeRequest env.timeNow req song).ID := by
    rw [mergeRequest_ID]
  refine ⟨_, _, UpdateSong_accepted env id req db song hf1 hf2 hf3 hget hcheck,
    List.mem_map_of_mem _ hmem, ?_, ?_, ?_, ?_⟩
  · rw [← mergeRequest_GroupName env.timeNow]; simp [updatedRow, hmid]
  · rw [← mergeRequest_SongName env.timeNow]; simp [updatedRow, hmid]
  · rw [← mergeRequest_Text env.timeNow]; simp [updatedRow, hmid]
  · rw [← mergeRequest_Link env.timeNow]; simp [updatedRow, hmid]

/-- C9 at the stored song (A, B, T, L) and the request ("", C, "", ""): the record
written is (A, C, T, L). -/
theorem UpdateSong_merge_witness :
    getSongByIDQuery 1 abStore = some songAB ∧
    (SongService.UpdateSong (catalog quietEnv) quietEnv.timeNow 1 (mkRequest "" "C" "" "")
      abStore).1 =
      .ok songAC ∧
    ∃ row db1, SongService.UpdateSong (catalog quietEnv) quietEnv.timeNow 1
        (mkRequest "" "C" "" "") abStore = (.ok row, db1) ∧ row ∈ db1.rows ∧
      row.GroupName = "A" ∧ row.SongName = "C" ∧ row.Text = "T" ∧ row.Link = "L" :=
  ⟨by decide, by decide,
   (UpdateSong_merge quietEnv 1 (mkRequest "" "C" "" "") abStore songAB rfl rfl rfl
     (by decide) (by decide)).imp (fun _ h => h.imp (fun _ h2 =>
       ⟨h2.1, h2.2.1, h2.2.2.1.trans (by decide), h2.2.2.2.1.trans (by decide),
        h2.2.2.2.2.1.trans (by decide), h2.2.2.2.2.2.trans (by decide)⟩))⟩

/-- C10: every successful `UpdateSong` on a store with unique ids leaves the id, the
release timestamp and the created timestamp of the updated song as stored, sets its
updated timestamp to the current time of the store, replaces exactly that song by
the returned record and leaves every other stored song and the id sequence
unchanged, whatever the request. -/
theorem UpdateSong_frame (env : Env) (id : Int) (req : SongRequest) (db db1 : DB)
    (row : Song) (hpk : UniqueIDs db)
    (hok : SongService.UpdateSong (catalog env) env.timeNow id req db = (.ok row, db1)) :
    ∃ song, getSongByIDQuery id db = some song ∧ song ∈ db.rows ∧
      row.ID = id ∧ row.ID = song.ID ∧ row.ReleaseDate = song.ReleaseDate ∧
      row.CreatedAt = song.CreatedAt ∧ row.UpdatedAt = env.NOW ∧
      db1.nextID = db.nextID ∧
      db1.rows = db.rows.map (fun r => if r = song then row else r) ∧
      (∀ r ∈ db.rows, r.ID ≠ id → r ∈ db1.rows) := by
  obtain ⟨song, hget, -, hrow, hdb⟩ := UpdateSong_ok_inv env id req db db1 row hok
  obtain ⟨hmem, hid⟩ := getSongByIDQuery_some id db song hget
  have hmid : song.ID = (mergeRequest env.timeNow req song).ID := by
    rw [mergeRequest_ID]
  have hmap : db.rows.map (updatedRow env (mergeRequest env.timeNow req song)) =
      db.rows.map (fun r => if r = song then row else r) := by
    apply List.map_congr_left
    intro r hr
    by_cases hrs : r = song
    · simp [hrs, hrow]
    · have hne : r.ID ≠ song.ID := fun h =>
        hrs (List.inj_on_of_nodup_map hpk hr hmem h)
      rw [if_neg hrs]
      unfold updatedRow
      rw [if_neg (by rw [← hmid]; exact hne)]
  refine ⟨song, hget, hmem, ?_, ?_, ?_, ?_, ?_, ?_, ?_, ?_⟩
  · rw [hrow, updatedRow_ID, hid]
  · rw [hrow, updatedRow_ID]
  · rw [hrow, ← mergeRequest_ReleaseDate env.timeNow req song]; simp [updatedRow, hmid]
  · rw [hrow]; simp [updatedRow, hmid]
  · rw [hrow]; simp [updatedRow, hmid]
  · rw [hdb]
  · rw [hdb]; exact hmap
  · intro r hr hne
    rw [hdb]
    have : updatedRow env (mergeRequest env.timeNow req song) r = r := by
      unfold updatedRow
      rw [if_neg (by rw [← hmid, hid]; exact hne)]
    simpa [this] using List.mem_map_of_mem (updatedRow env (mergeRequest env.timeNow req song)) hr

/-- C10 at a request whose four fields are all empty: the update succeeds, only the
updated timestamp of song 1 changes, and song 2 is untouched. -/
theorem UpdateSong_frame_witness :
    UniqueIDs abStore ∧
    SongService.UpdateSong (catalog quietEnv) quietEnv.timeNow 1 (mkRequest "" "" "" "")
      abStore =
      (.ok songABTouched, { rows := [songABTouched, songAD], nextID := 3 }) ∧
    ∃ song, getSongByIDQuery 1 abStore = some song ∧ song ∈ abStore.rows ∧
      songABTouched.ID = song.ID ∧ songABTouched.ReleaseDate = song.ReleaseDate ∧
      songABTouched.CreatedAt = song.CreatedAt :=
  ⟨by unfold UniqueIDs; decide, by decide,
   (UpdateSong_frame quietEnv 1 (mkRequest "" "" "" "") abStore
      { rows := [songABTouched, songAD], nextID := 3 } songABTouched
      (by unfold UniqueIDs; decide) (by decide)).imp
     (fun _ h => ⟨h.1, h.2.1, h.2.2.2.1, h.2.2.2.2.1, h.2.2.2.2.2.1⟩)⟩

/-! ## Deleting a song -/

theorem deleteSongQuery_count_eq_zero (id : Int) (db : DB) :
    (deleteSongQuery id db).1 = 0 ↔ ¬ ∃ r ∈ db.rows, r.ID = id := by
  unfold deleteSongQuery
  simp only [Int.natCast_eq_zero, List.length_eq_zero, List.filter_eq_nil_iff, beq_iff_eq]
  constructor
  · rintro h ⟨r, hr, hid⟩
    exact h r hr hid
  · intro h r hr hid
    exact h ⟨r, hr, hid⟩

theorem deleteSongQuery_absent (id : Int) (db : DB) (h : ¬ ∃ r ∈ db.rows, r.ID = id) :
    (deleteSongQuery id db).2 = db := by
  unfold deleteSongQuery
  have : db.rows.filter (fun r => r.ID != id) = db.rows := by
    rw [List.filter_eq_self]
    intro r hr
    simp only [bne_iff_ne, ne_eq]
    exact fun hid => h ⟨r, hr, hid⟩
  simp [this]

/-- Outcome of `DeleteSong` when the store answers both round trips. -/
theorem DeleteSong_outcome (env : Env) (id : Int) (db : DB)
    (hf1 : env.fault .deleteSong = none) (hf2 : env.fault .rowsAffected = none) :
    SongService.DeleteSong (catalog env) id db =
      (if (deleteSongQuery id db).1 = 0 then some (.app (NewNotFound "song not found" none))
       else none, (deleteSongQuery id db).2) := by
  simp only [SongService.DeleteSong, catalog, NewPostgresSongRepository,
    PostgresSongRepository.DeleteSong, hf1, hf2]
  split <;> rfl

/-- C11: when the store answers, `DeleteSong(id)` on a stored id succeeds and leaves
the table without the rows of that id, all other rows in place (with unique ids:
exactly that song is removed); a second `DeleteSong(id)` on the resulting store fails
with `NotFound` and leaves it unchanged; and in general `DeleteSong(id)` fails, with
kind `NotFound`, exactly when no stored song has that id. -/
theorem DeleteSong_by_id (env : Env) (id : Int) (db : DB)
    (hf1 : env.fault .deleteSong = none) (hf2 : env.fault .rowsAffected = none) :
    ((∃ r ∈ db.rows, r.ID = id) →
      SongService.DeleteSong (catalog env) id db =
        (none, { db with rows := db.rows.filter (fun r => r.ID != id) }) ∧
      (∀ r, r ∈ db.rows.filter (fun r => r.ID != id) ↔ r ∈ db.rows ∧ r.ID ≠ id) ∧
      (UniqueIDs db → ∀ song ∈ db.rows, song.ID = id →
        ∀ r, r ∈ db.rows.filter (fun r => r.ID != id) ↔ r ∈ db.rows ∧ r ≠ song) ∧
      SongService.DeleteSong (catalog env) id
          { db with rows := db.rows.filter (fun r => r.ID != id) } =
        (some (.app (NewNotFound "song not found" none)),
         { db with rows := db.rows.filter (fun r => r.ID != id) })) ∧
    ((¬ ∃ r ∈ db.rows, r.ID = id) →
      SongService.DeleteSong (catalog env) id db =
        (some (.app (NewNotFound "song not found" none)), db)) ∧
    ((SongService.DeleteSong (catalog env) id db).1 ≠ none ↔ ¬ ∃ r ∈ db.rows, r.ID = id) ∧
    (NewNotFound "song not found" none).Typ = NotFound := by
  have hmemf : ∀ r, r ∈ db.rows.filter (fun r => r.ID != id) ↔ r ∈ db.rows ∧ r.ID ≠ id := by
    intro r
    simp [List.mem_filter]
  refine ⟨?_, ?_, ?_, rfl⟩
  · intro hex
    have hne : ¬ (deleteSongQuery id db).1 = 0 := by
      rw [deleteSongQuery_count_eq_zero]; exact fun h => h hex
    refine ⟨?_, hmemf, ?_, ?_⟩
    · rw [DeleteSong_outcome env id db hf1 hf2, if_neg hne]
      rfl
    · intro hpk song hsong hid r
      rw [hmemf]
      constructor
      · rintro ⟨hr, hrid⟩
        exact ⟨hr, fun h => hrid (by rw [h, hid])⟩
      · rintro ⟨hr, hrs⟩
        refine ⟨hr, fun h => hrs ?_⟩
        exact List.inj_on_of_nodup_map hpk hr hsong (by rw [h, hid])
    · have habs : ¬ ∃ r ∈ ({ db with rows := db.rows.filter (fun r => r.ID != id) } : DB).rows,
          r.ID = id := by
        rintro ⟨r, hr, hid⟩
        exact ((hmemf r).1 hr).2 hid
      rw [DeleteSong_outcome env id _ hf1 hf2,
        if_pos ((deleteSongQuery_count_eq_zero id _).2 habs), deleteSongQuery_absent id _ habs]
  · intro habs
    rw [DeleteSong_outcome env id db hf1 hf2,
      if_pos ((deleteSongQuery_count_eq_zero id db).2 habs), deleteSongQuery_absent id db habs]
  · rw [DeleteSong_outcome env id db hf1 hf2, ← deleteSongQuery_count_eq_zero]
    by_cases h0 : (deleteSongQuery id db).1 = 0
    · simp [h0]
    · simp [h0]

/-- C11 at a concrete store: deleting song 1 twice succeeds, then fails. -/
theorem DeleteSong_by_id_witness :
    quietEnv.fault .deleteSong = none ∧ quietEnv.fault .rowsAffected = none ∧
    (∃ r ∈ abStore.rows, r.ID = 1) ∧
    SongService.DeleteSong (catalog quietEnv) 1 abStore =
      (none, { abStore with rows := abStore.rows.filter (fun r => r.ID != 1) }) ∧
    abStore.rows.filter (fun r => r.ID != 1) = [songAD] ∧
    SongService.DeleteSong (catalog quietEnv) 1
        { abStore with rows := abStore.rows.filter (fun r => r.ID != 1) } =
      (some (.app (NewNotFound "song not found" none)),
       { abStore with rows := abStore.rows.filter (fun r => r.ID != 1) }) :=
  ⟨rfl, rfl, ⟨songAB, by decide, by decide⟩,
   ((DeleteSong_by_id quietEnv 1 abStore rfl rfl).1 ⟨songAB, by decide, by decide⟩).1,
   by decide,
   ((DeleteSong_by_id quietEnv 1 abStore rfl rfl).1 ⟨songAB, by decide, by decide⟩).2.2.2⟩

/-! ## Uniqueness of (group, title) as a store invariant -/

/-- The store after `CreateSong`: untouched, or extended by the one row an accepted
insert returned. -/
theorem CreateSong_state (env : Env) (req : SongRequest) (db : DB) :
    (SongService.CreateSong (catalog env) env.timeNow req db).2 = db ∨
    ∃ row, createSongQuery env (requestedSong env.timeNow req) db =
        .ok (row, { rows := db.rows ++ [row], nextID := db.nextID + 1 }) ∧
      (SongService.CreateSong (catalog env) env.timeNow req db).2 =
        { rows := db.rows ++ [row], nextID := db.nextID + 1 } := by
  have e : SongService.CreateSong (catalog env) env.timeNow req db =
      PostgresSongRepository.CreateSong env (requestedSong env.timeNow req) db := rfl
  rw [e]
  unfold PostgresSongRepository.CreateSong
  split
  · left; rfl
  · split
    · left; rfl
    · split
      · left; rfl
      · split
        · left; rfl
        · rename_i row db1 hq
          right
          obtain ⟨-, -, hdb⟩ := createSongQuery_ok env _ row db db1 hq
          subst hdb
          exact ⟨row, hq, rfl⟩

/-- The store after `UpdateSong`: untouched, or rewritten by `updateSongQuery` with a
merged record whose pair was checked against the songs of other ids. -/
theorem UpdateSong_state (env : Env) (id : Int) (req : SongRequest) (db : DB) :
    (SongService.UpdateSong (catalog env) env.timeNow id req db).2 = db ∨
    ∃ song, getSongByIDQuery id db = some song ∧
      checkSongExistsQuery (mergeRequest env.timeNow req song).GroupName
        (mergeRequest env.timeNow req song).SongName id db = false ∧
      (SongService.UpdateSong (catalog env) env.timeNow id req db).2 =
        { db with rows := db.rows.map (updatedRow env (mergeRequest env.timeNow req song)) } := by
  cases hf1 : env.fault .getSongByID with
  | some m =>
    left
    simp [SongService.UpdateSong, catalog, NewPostgresSongRepository,
      PostgresSongRepository.GetSongByID, hf1, internalErr]
  | none =>
    cases hget : getSongByIDQuery id db with
    | none =>
      left
      simp [SongService.UpdateSong, catalog, NewPostgresSongRepository,
        PostgresSongRepository.GetSongByID, hf1, hget]
    | some song =>
      have hid := (getSongByIDQuery_some id db song hget).2
      have hmid : (mergeRequest env.timeNow req song).ID = id := by
        rw [mergeRequest_ID, hid]
      cases hf2 : env.fault .checkSongExists with
      | some m =>
        left
        simp [SongService.UpdateSong, catalog, NewPostgresSongRepository,
          PostgresSongRepository.GetSongByID, PostgresSongRepository.UpdateSong, hf1, hget,
          hf2, internalErr]
      | none =>
        cases hcheck : checkSongExistsQuery (mergeRequest env.timeNow req song).GroupName
            (mergeRequest env.timeNow req song).SongName id db with
        | true =>
          left
          simp [SongService.UpdateSong, catalog, NewPostgresSongRepository,
            PostgresSongRepository.GetSongByID, PostgresSongRepository.UpdateSong, hf1, hget,
            hf2, hmid, hcheck]
        | false =>
          cases hf3 : env.fault .updateSong with
          | some m =>
            left
            simp [SongService.UpdateSong, catalog, NewPostgresSongRepository,
              PostgresSongRepository.GetSongByID, PostgresSongRepository.UpdateSong, hf1,
              hget, hf2, hmid, hcheck, hf3, internalErr]
          | none =>
            right
            refine ⟨song, rfl, hcheck, ?_⟩
            rw [UpdateSong_accepted env id req db song hf1 hf2 hf3 hget hcheck]

/-- The store after `DeleteSong`: untouched, or without the rows of the given id. -/
theorem DeleteSong_state (env : Env) (id : Int) (db : DB) :
    (SongService.DeleteSong (catalog env) id db).2 = db ∨
    (SongService.DeleteSong (catalog env) id db).2 =
      { db with rows := db.rows.filter (fun r => r.ID != id) } := by
  simp only [SongService.DeleteSong, catalog, NewPostgresSongRepository,
    PostgresSongRepository.DeleteSong, deleteSongQuery]
  cases env.fault .deleteSong with
  | some m => left; rfl
  | none =>
    cases env.fault .rowsAffected with
    | some m => right; rfl
    | none => right; simp only []; split <;> rfl

theorem StoreInvariant_insert (row : Song) (db : DB) (h : StoreInvariant db)
    (hid : row.ID = db.nextID) (hc : violatesUnique row db = false) :
    StoreInvariant { rows := db.rows ++ [row], nextID := db.nextID + 1 } := by
  obtain ⟨hu, hpk, hseq⟩ := h
  have hfresh : ¬ ∃ r ∈ db.rows, r.GroupName = row.GroupName ∧ r.SongName = row.SongName := by
    rw [← violatesUnique_iff, hc]; simp
  refine ⟨?_, ?_, ?_⟩
  · unfold UniquePairs at hu ⊢
    simp only [List.pairwise_append, List.pairwise_cons, List.Pairwise.nil, List.mem_singleton]
    refine ⟨hu, ⟨by simp, trivial⟩, ?_⟩
    intro a ha b hb hab
    subst hb
    exact hfresh ⟨a, ha, hab.1, hab.2⟩
  · unfold UniqueIDs at hpk ⊢
    simp only [List.map_append, List.map_cons, List.map_nil]
    rw [List.nodup_append]
    refine ⟨hpk, List.nodup_singleton _, ?_⟩
    intro x hx hx2
    simp only [List.mem_singleton] at hx2
    simp only [List.mem_map] at hx
    obtain ⟨r, hr, hrx⟩ := hx
    have := hseq r hr
    omega
  · intro r hr
    simp only [List.mem_append, List.mem_singleton] at hr
    rcases hr with hr | hr
    · have := hseq r hr
      show r.ID < db.nextID + 1
      omega
    · subst hr
      show r.ID < db.nextID + 1
      omega

theorem StoreInvariant_update (env : Env) (m : Song) (db : DB) (h : StoreInvariant db)
    (hc : checkSongExistsQuery m.GroupName m.SongName m.ID db = false) :
    StoreInvariant { db with rows := db.rows.map (updatedRow env m) } := by
  obtain ⟨hu, hpk, hseq⟩ := h
  have hother : ∀ r ∈ db.rows, r.ID ≠ m.ID →
      ¬ (r.GroupName = m.GroupName ∧ r.SongName = m.SongName) := by
    intro r hr hne hp
    have : checkSongExistsQuery m.GroupName m.SongName m.ID db = true :=
      (checkSongExistsQuery_iff _ _ _ _).2 ⟨r, hr, hp.1, hp.2, hne⟩
    rw [hc] at this
    exact Bool.noConfusion this
  have hids : (db.rows.map (updatedRow env m)).map (fun r => r.ID) =
      db.rows.map (fun r => r.ID) := by
    rw [List.map_map]
    apply List.map_congr_left
    intro r _
    exact updatedRow_ID env m r
  refine ⟨?_, ?_, ?_⟩
  · unfold UniquePairs at hu ⊢
    unfold UniqueIDs at hpk
    simp only [List.pairwise_map]
    have hpk2 : db.rows.Pairwise (fun a b => a.ID ≠ b.ID) := by
      have := hpk
      unfold List.Nodup at this
      rwa [List.pairwise_map] at this
    refine (hu.and hpk2).imp_of_mem ?_
    intro a b ha hb hab
    obtain ⟨hpair, hid⟩ := hab
    by_cases h1 : a.ID = m.ID
    · have h2 : b.ID ≠ m.ID := fun h => hid (by rw [h1, h])
      have ea : (updatedRow env m a).GroupName = m.GroupName ∧
          (updatedRow env m a).SongName = m.SongName := by
        simp [updatedRow, h1]
      have eb : updatedRow env m b = b := by
        unfold updatedRow; rw [if_neg h2]
      rw [eb, ea.1, ea.2]
      exact fun hp => hother b hb h2 ⟨hp.1.symm, hp.2.symm⟩
    · have ea : updatedRow env m a = a := by
        unfold updatedRow; rw [if_neg h1]
      rw [ea]
      by_cases h2 : b.ID = m.ID
      · have eb : (updatedRow env m b).GroupName = m.GroupName ∧
            (updatedRow env m b).SongName = m.SongName := by
          simp [updatedRow, h2]
        rw [eb.1, eb.2]
        exact hother a ha h1
      · have eb : updatedRow env m b = b := by
          unfold updatedRow; rw [if_neg h2]
        rw [eb]
        exact hpair
  · unfold UniqueIDs at hpk ⊢
    show ((db.rows.map (updatedRow env m)).map (fun r => r.ID)).Nodup
    rw [hids]; exact hpk
  · intro r hr
    simp only [List.mem_map] at hr
    obtain ⟨r0, hr0, rfl⟩ := hr
    rw [updatedRow_ID]
    exact hseq r0 hr0

theorem StoreInvariant_delete (id : Int) (db : DB) (h : StoreInvariant db) :
    StoreInvariant { db with rows := db.rows.filter (fun r => r.ID != id) } := by
  obtain ⟨hu, hpk, hseq⟩ := h
  refine ⟨?_, ?_, ?_⟩
  · unfold UniquePairs at hu ⊢
    exact hu.sublist (List.filter_sublist _)
  · unfold UniqueIDs at hpk ⊢
    exact hpk.sublist ((List.filter_sublist _).map _)
  · intro r hr
    exact hseq r (List.mem_of_mem_filter hr)

/-- C12: under sequential execution the store invariant, and with it the uniqueness
of the pair (group name, song title), is kept by every `CreateSong`, `UpdateSong` and
`DeleteSong` call, whatever its outcome.  The existence check made before the write
decides every update and every create whose values fit their columns; a create whose
group or title the `VARCHAR(255)` column cuts is refused by the table when the cut
pair is already stored, and a refused write leaves the store unchanged. -/
theorem UniquePairs_preserved (env : Env) (id : Int) (req : SongRequest) (db : DB)
    (h : StoreInvariant db) :
    (StoreInvariant (SongService.CreateSong (catalog env) env.timeNow req db).2 ∧
      UniquePairs (SongService.CreateSong (catalog env) env.timeNow req db).2) ∧
    (StoreInvariant (SongService.UpdateSong (catalog env) env.timeNow id req db).2 ∧
      UniquePairs (SongService.UpdateSong (catalog env) env.timeNow id req db).2) ∧
    (StoreInvariant (SongService.DeleteSong (catalog env) id db).2 ∧
      UniquePairs (SongService.DeleteSong (catalog env) id db).2) := by
  have hc : StoreInvariant (SongService.CreateSong (catalog env) env.timeNow req db).2 := by
    rcases CreateSong_state env req db with h1 | ⟨row, hq, h1⟩
    · rw [h1]; exact h
    · rw [h1]
      obtain ⟨hrow, hviol, -⟩ := createSongQuery_ok env _ row db _ hq
      exact StoreInvariant_insert row db h (createdRow_some env _ row db hrow).2.2.2.2.2.1 hviol
  have hupd : StoreInvariant (SongService.UpdateSong (catalog env) env.timeNow id req db).2 := by
    rcases UpdateSong_state env id req db with h1 | ⟨song, hget, hchk, h1⟩
    · rw [h1]; exact h
    · rw [h1]
      have hid := (getSongByIDQuery_some id db song hget).2
      have hmid : (mergeRequest env.timeNow req song).ID = id := by
        rw [mergeRequest_ID, hid]
      apply StoreInvariant_update env _ db h
      rw [hmid]; exact hchk
  have hd : StoreInvariant (SongService.DeleteSong (catalog env) id db).2 := by
    rcases DeleteSong_state env id db with h1 | h1
    · rw [h1]; exact h
    · rw [h1]; exact StoreInvariant_delete id db h
  exact ⟨⟨hc, hc.1⟩, ⟨hupd, hupd.1⟩, ⟨hd, hd.1⟩⟩

/-- C12 at a concrete store: the three calls on the two-song table keep the pairs
unique. -/
theorem UniquePairs_preserved_witness :
    StoreInvariant abStore ∧
    UniquePairs (SongService.CreateSong (catalog quietEnv) quietEnv.timeNow
      (mkRequest "A" "E" "" "") abStore).2 ∧
    UniquePairs (SongService.UpdateSong (catalog quietEnv) quietEnv.timeNow 1
      (mkRequest "" "D" "" "") abStore).2 ∧
    UniquePairs (SongService.DeleteSong (catalog quietEnv) 1 abStore).2 :=
  ⟨⟨by unfold UniquePairs; decide, by unfold UniqueIDs; decide,
      by unfold FreshSequence; decide⟩,
   (UniquePairs_preserved quietEnv 1 (mkRequest "A" "E" "" "") abStore
      ⟨by unfold UniquePairs; decide, by unfold UniqueIDs; decide,
        by unfold FreshSequence; decide⟩).1.2,
   (UniquePairs_preserved quietEnv 1 (mkRequest "" "D" "" "") abStore
      ⟨by unfold UniquePairs; decide, by unfold UniqueIDs; decide,
        by unfold FreshSequence; decide⟩).2.1.2,
   (UniquePairs_preserved quietEnv 1 (mkRequest "" "D" "" "") abStore
      ⟨by unfold UniquePairs; decide, by unfold UniqueIDs; decide,
        by unfold FreshSequence; decide⟩).2.2.2⟩

/-! ## Error kinds at the boundary -/

/-- C13: `handleError` gives every error one status determined by its kind:
`NotFound` 404, `BadRequest` 400, `Validation` 422, `AlreadyExists` 409, and
`Internal`, every other kind and every error that is not an application error 500;
the five statuses are pairwise different. -/
theorem handleError_status (e : Error) (c : Cause) :
    (e.Typ = NotFound → (handleError (.app e)).1 = 404) ∧
    (e.Typ = BadRequest → (handleError (.app e)).1 = 400) ∧
    (e.Typ = Validation → (handleError (.app e)).1 = 422) ∧
    (e.Typ = AlreadyExists → (handleError (.app e)).1 = 409) ∧
    (e.Typ = Internal → (handleError (.app e)).1 = 500) ∧
    (e.Typ ≠ NotFound → e.Typ ≠ BadRequest → e.Typ ≠ Validation → e.Typ ≠ AlreadyExists →
      (handleError (.app e)).1 = 500) ∧
    (handleError (.other c)).1 = 500 ∧
    [StatusNotFound, StatusBadRequest, StatusUnprocessableEntity, StatusConflict,
      StatusInternalServerError].Nodup := by
  refine ⟨?_, ?_, ?_, ?_, ?_, ?_, rfl, by decide⟩
  · intro h
    simp [handleError, h, StatusNotFound]
  · intro h
    have h1 : ¬ BadRequest = NotFound := by decide
    simp [handleError, h, h1, StatusBadRequest]
  · intro h
    have h1 : ¬ Validation = NotFound := by decide
    have h2 : ¬ Validation = BadRequest := by decide
    simp [handleError, h, h1, h2, StatusUnprocessableEntity]
  · intro h
    have h1 : ¬ AlreadyExists = NotFound := by decide
    have h2 : ¬ AlreadyExists = BadRequest := by decide
    have h3 : ¬ AlreadyExists = Validation := by decide
    simp [handleError, h, h1, h2, h3, StatusConflict]
  · intro h
    have h1 : ¬ Internal = NotFound := by decide
    have h2 : ¬ Internal = BadRequest := by decide
    have h3 : ¬ Internal = Validation := by decide
    have h4 : ¬ Internal = AlreadyExists := by decide
    simp [handleError, h, h1, h2, h3, h4, StatusInternalServerError]
  · intro h1 h2 h3 h4
    simp [handleError, h1, h2, h3, h4, StatusInternalServerError]

/-- C13 at the five constructors of the package and at a kind unknown to it. -/
theorem handleError_status_witness :
    (NewNotFound "m" none).Typ = NotFound ∧
    (handleError (.app (NewNotFound "m" none))).1 = 404 ∧
    (handleError (.app (NewBadRequest "m" none))).1 = 400 ∧
    (handleError (.app (NewValidation "m" none))).1 = 422 ∧
    (handleError (.app (NewAlreadyExists "m" none))).1 = 409 ∧
    (handleError (.app (NewInternal "m" none))).1 = 500 ∧
    (handleError (.app (Error.mk "TEAPOT" "m" none))).1 = 500 :=
  ⟨rfl,
   (handleError_status (NewNotFound "m" none) .ErrNoRows).1 rfl,
   (handleError_status (NewBadRequest "m" none) .ErrNoRows).2.1 rfl,
   (handleError_status (NewValidation "m" none) .ErrNoRows).2.2.1 rfl,
   (handleError_status (NewAlreadyExists "m" none) .ErrNoRows).2.2.2.1 rfl,
   (handleError_status (NewInternal "m" none) .ErrNoRows).2.2.2.2.1 rfl,
   (handleError_status (Error.mk "TEAPOT" "m" none) .ErrNoRows).2.2.2.2.2.1
     (by decide) (by decide) (by decide) (by decide)⟩

/-! ## Store errors pass through the service -/

theorem GetSongByID_state (env : Env) (id : Int) (db : DB) :
    (PostgresSongRepository.GetSongByID env id db).2 = db := by
  unfold PostgresSongRepository.GetSongByID
  split
  · rfl
  · split <;> rfl

/-- C14: for every repository and every error `e` its `GetSongByID` returns,
`GetLyrics` and `UpdateSong` return exactly `e` and no result, and `UpdateSong` does
not call the store's update (the state is the one `GetSongByID` left; for the
PostgreSQL repository this is the table before the call); `GetSongs`, `CreateSong`
and `DeleteSong` return exactly what the store's method returned, and after a
successful load `UpdateSong` returns exactly what the store's update returned. -/
theorem service_passes_store_errors {σ : Type} (repo : SongRepository σ) (env : Env)
    (now : Time) (id page pageSize : Int) (req : SongRequest) (filter : SongFilter)
    (st : σ) (db : DB) :
    (∀ e st1, repo.GetSongByID id st = (.err e, st1) →
      SongService.GetLyrics repo id page pageSize st = (.err e, st1) ∧
      SongService.UpdateSong repo now id req st = (.err e, st1)) ∧
    (∀ e db1, (catalog env).GetSongByID id db = (.err e, db1) →
      SongService.UpdateSong (catalog env) now id req db = (.err e, db) ∧
      SongService.GetLyrics (catalog env) id page pageSize db = (.err e, db)) ∧
    SongService.GetSongs repo filter st = repo.GetSongs filter st ∧
    SongService.CreateSong repo now req st = repo.CreateSong (requestedSong now req) st ∧
    SongService.DeleteSong repo id st = repo.DeleteSong id st ∧
    (∀ song st1, repo.GetSongByID id st = (.ok song, st1) →
      SongService.UpdateSong repo now id req st =
        repo.UpdateSong (mergeRequest now req song) st1) := by
  have general : ∀ {τ : Type} (r : SongRepository τ) (s : τ) (e : GoError) (s1 : τ),
      r.GetSongByID id s = (.err e, s1) →
      SongService.GetLyrics r id page pageSize s = (.err e, s1) ∧
      SongService.UpdateSong r now id req s = (.err e, s1) := by
    intro τ r s e s1 h
    constructor
    · simp only [SongService.GetLyrics, h]
    · simp only [SongService.UpdateSong, h]
  refine ⟨fun e st1 h => general repo st e st1 h, ?_, rfl, rfl, rfl, ?_⟩
  · intro e db1 h
    have hdb : db1 = db := by
      have := GetSongByID_state env id db
      have h2 : (catalog env).GetSongByID id db = PostgresSongRepository.GetSongByID env id db :=
        rfl
      rw [← h2, h] at this
      exact this
    subst hdb
    exact ⟨(general (catalog env) db1 e db1 h).2, (general (catalog env) db1 e db1 h).1⟩
  · intro song st1 h
    simp only [SongService.UpdateSong, h]

/-- C14 at a concrete store: the `NotFound` of the store for an absent id comes back
unchanged from `GetLyrics` and `UpdateSong`, and the table is untouched. -/
theorem service_passes_store_errors_witness :
    (catalog quietEnv).GetSongByID 9 abStore =
      (.err (.app (NewNotFound "song not found" (some .ErrNoRows))), abStore) ∧
    SongService.GetLyrics (catalog quietEnv) 9 1 1 abStore =
      (.err (.app (NewNotFound "song not found" (some .ErrNoRows))), abStore) ∧
    SongService.UpdateSong (catalog quietEnv) 1000 9 (mkRequest "" "Z" "" "") abStore =
      (.err (.app (NewNotFound "song not found" (some .ErrNoRows))), abStore) :=
  ⟨by decide,
   ((service_passes_store_errors (catalog quietEnv) quietEnv 1000 9 1 1
      (mkRequest "" "Z" "" "") (emptyFilter 1 1) abStore abStore).1 _ _ (by decide)).1,
   ((service_passes_store_errors (catalog quietEnv) quietEnv 1000 9 1 1
      (mkRequest "" "Z" "" "") (emptyFilter 1 1) abStore abStore).1 _ _ (by decide)).2⟩

/-! ## Verses hold no separator -/

theorem Contains_iff_infix (s substr : String) :
    Contains s substr = true ↔ substr.data <:+: s.data := by
  unfold Contains
  rw [List.any_eq_true, List.infix_iff_prefix_suffix]
  constructor
  · rintro ⟨t, ht, hp⟩
    exact ⟨t, List.isPrefixOf_iff_prefix.1 hp, (List.mem_tails _ _).1 ht⟩
  · rintro ⟨t, hp, ht⟩
    exact ⟨t, (List.mem_tails _ _).2 ht, List.isPrefixOf_iff_prefix.2 hp⟩

theorem NoMatchInside_nil (sep l : List Char) : NoMatchInside sep [] l := by
  intro a b h hb
  simp only [List.reverse_nil] at h
  have := List.append_eq_nil.1 h.symm
  exact absurd this.2 hb

theorem NoMatchInside_not_infix (sep cur l : List Char) (hsep : sep ≠ [])
    (h : NoMatchInside sep cur l) : ¬ sep <:+: cur.reverse := by
  rintro ⟨a, b, hab⟩
  have h1 : cur.reverse = a ++ (sep ++ b) := by rw [← hab, List.append_assoc]
  refine h a (sep ++ b) h1 (by simp [hsep]) ?_
  exact ⟨b ++ l, by simp⟩

theorem NoMatchInside_push (sep cur rest : List Char) (c : Char)
    (h : NoMatchInside sep cur (c :: rest)) (hc : ¬ sep <+: (c :: rest)) :
    NoMatchInside sep (c :: cur) rest := by
  intro a b hab hb
  rcases List.eq_nil_or_concat b with hnil | ⟨b1, x, hbx⟩
  · exact absurd hnil hb
  · subst hbx
    simp only [List.reverse_cons, List.concat_eq_append] at hab
    rw [← List.append_assoc] at hab
    have hx := List.append_inj_right' hab (by simp)
    have ha := List.append_inj_left' hab (by simp)
    simp only [List.cons.injEq, and_true] at hx
    subst hx
    simp only [List.concat_eq_append, List.append_assoc, List.singleton_append]
    by_cases hb1 : b1 = []
    · subst hb1
      simpa using hc
    · exact h a b1 ha hb1

/-- No piece produced by the scanner holds the separator. -/
theorem splitFrom_no_sep (sep : List Char) (hsep : sep ≠ []) (l : List Char) :
    (∀ cur, NoMatchInside sep cur l → ∀ piece ∈ splitFrom sep l 0 cur, ¬ sep <:+: piece) ∧
    (∀ skip, ∀ piece ∈ splitFrom sep l skip [], ¬ sep <:+: piece) := by
  induction l with
  | nil =>
    constructor
    · intro cur hinv piece hp
      simp only [splitFrom, List.mem_singleton] at hp
      subst hp
      exact NoMatchInside_not_infix sep cur [] hsep hinv
    · intro skip piece hp
      simp only [splitFrom, List.mem_singleton] at hp
      subst hp
      exact NoMatchInside_not_infix sep [] [] hsep (NoMatchInside_nil sep [])
  | cons c rest ih =>
    have first : ∀ cur, NoMatchInside sep cur (c :: rest) →
        ∀ piece ∈ splitFrom sep (c :: rest) 0 cur, ¬ sep <:+: piece := by
      intro cur hinv piece hp
      simp only [splitFrom] at hp
      split at hp
      · simp only [List.mem_cons] at hp
        rcases hp with hp | hp
        · subst hp
          exact NoMatchInside_not_infix sep cur (c :: rest) hsep hinv
        · exact ih.2 _ piece hp
      · rename_i hno
        have hno2 : ¬ sep <+: (c :: rest) := fun h => hno (List.isPrefixOf_iff_prefix.2 h)
        exact ih.1 (c :: cur) (NoMatchInside_push sep cur rest c hinv hno2) piece hp
    refine ⟨first, ?_⟩
    intro skip piece hp
    cases skip with
    | zero => exact first [] (NoMatchInside_nil sep _) piece hp
    | succ k =>
      simp only [splitFrom] at hp
      exact ih.2 k piece hp

/-- No verse obtained by `Split` on a non-empty separator contains the separator. -/
theorem Split_no_sep (s sep : String) (hsep : sep ≠ "") :
    ∀ v ∈ Split s sep, Contains v sep = false := by
  intro v hv
  have hd : sep.data ≠ [] := by
    intro h
    apply hsep
    cases sep
    simp_all
  simp only [Split, if_neg hsep, List.mem_map] at hv
  obtain ⟨piece, hp, rfl⟩ := hv
  rw [← Bool.not_eq_true, Contains_iff_infix]
  exact (splitFrom_no_sep sep.data hd s.data).2 0 piece hp

theorem wrapInt_bounds (x : Int) :
    -9223372036854775808 ≤ wrapInt x ∧ wrapInt x ≤ 9223372036854775807 := by
  unfold wrapInt; omega

/-- A successful slice `xs[lo:hi]` holds `hi - lo` elements, all of them from `xs`. -/
theorem sliceBetween_some {α : Type} (xs sel : List α) (lo hi : Int)
    (h : sliceBetween xs lo hi = some sel) :
    0 ≤ lo ∧ lo ≤ hi ∧ hi ≤ (xs.length : Int) ∧ (sel.length : Int) = hi - lo ∧
      (∀ v ∈ sel, v ∈ xs) ∧ sel = (xs.drop lo.toNat).take (hi.toNat - lo.toNat) := by
  unfold sliceBetween at h
  split at h
  · rename_i hc
    simp only [Option.some.injEq] at h
    subst h
    refine ⟨hc.1, hc.2.1, hc.2.2, ?_, ?_, rfl⟩
    · simp only [List.length_take, List.length_drop]
      omega
    · intro v hv
      exact List.mem_of_mem_drop (List.mem_of_mem_take hv)
  · simp at h

/-- C15: no verse obtained by splitting a text on "\n\n" contains "\n\n"; hence with
page size 1 the `Text` of every successful `GetLyrics` page contains no "\n\n". -/
theorem verses_hold_no_separator {σ : Type} (text : String) (repo : SongRepository σ)
    (id page : Int) (st st1 : σ) (resp : LyricsResponse) :
    (∀ v ∈ Split text "\n\n", Contains v "\n\n" = false) ∧
    (SongService.GetLyrics repo id page 1 st = (.ok resp, st1) →
      Contains resp.Text "\n\n" = false) := by
  refine ⟨Split_no_sep text "\n\n" (by decide), ?_⟩
  intro hok
  obtain ⟨song, sel, -, -, -, hslice, hresp⟩ := GetLyrics_ok_inv repo id page 1 st st1 resp hok
  have hS : normPageSize 1 = 1 := by decide
  rw [hS] at hslice
  obtain ⟨h0, hle, hlen, hsel, hmem, -⟩ := sliceBetween_some _ _ _ _ hslice
  have hb := wrapInt_bounds ((goSub (normPage page) 1) * 1)
  have hstart : goMul (goSub (normPage page) 1) 1 = wrapInt ((goSub (normPage page) 1) * 1) :=
    rfl
  rw [hstart] at h0 hle hsel
  generalize wrapInt ((goSub (normPage page) 1) * 1) = start at h0 hle hsel hb
  have hshort : sel.length ≤ 1 := by
    have hadd : goAdd start 1 = wrapInt (start + 1) := rfl
    rw [hadd] at hle hsel
    unfold wrapInt at hle hsel
    split at hle
    · omega
    · rename_i hgt
      rw [if_neg hgt] at hsel
      omega
  rw [hresp]
  show Contains (Join sel "\n\n") "\n\n" = false
  match sel, hshort, hmem with
  | [], _, _ => decide
  | [v], _, hm =>
    show Contains v "\n\n" = false
    exact Split_no_sep song.Text "\n\n" (by decide) v (hm v (by simp))
  | _ :: _ :: _, hs, _ => simp at hs

/-- C15 on texts with three and four consecutive line breaks: the verses are "A",
"\nB" and "A", "", "B", and the first page of size 1 holds no separator. -/
theorem verses_hold_no_separator_witness :
    Split "A\n\n\nB" "\n\n" = ["A", "\nB"] ∧
    Split "A\n\n\n\nB" "\n\n" = ["A", "", "B"] ∧
    SongService.GetLyrics (catalog quietEnv) 1 2 1 (lyricsDB "A\n\n\nB") =
      (.ok { Text := "\nB", CurrentPage := 2, TotalPages := 2, PageSize := 1 },
       lyricsDB "A\n\n\nB") ∧
    Contains "\nB" "\n\n" = false :=
  ⟨by decide, by decide, by decide,
   (verses_hold_no_separator "A\n\n\nB" (catalog quietEnv) 1 2 (lyricsDB "A\n\n\nB")
      (lyricsDB "A\n\n\nB")
      { Text := "\nB", CurrentPage := 2, TotalPages := 2, PageSize := 1 }).2 (by decide)⟩

/-! ## One page arithmetic in two places -/

/-- C16: the page arithmetic of `GetSongs` and the page arithmetic of `GetLyrics` are
the same function of (item count, requested page, requested page size): the same
normalised page, page size, total pages and first-item offset, and rejection in the
same cases.  `GetSongs` rejects with `NotFound` exactly when its arithmetic rejects
and otherwise lists with the computed limit and offset; `GetLyrics` on a loaded song
with text rejects with `NotFound` exactly when its arithmetic rejects and otherwise
slices the verses from the computed offset. -/
theorem page_arithmetic_shared {σ : Type} (env : Env) (f : SongFilter) (db : DB)
    (repo : SongRepository σ) (id : Int) (st st1 : σ) (song : Song) (n page pageSize : Int) :
    songsPageWindow n page pageSize = lyricsPageWindow n page pageSize ∧
    (env.fault .countSongs = none →
      (songsPageWindow (countSongsQuery env f db) f.Page f.PageSize = none →
        ∃ msg, PostgresSongRepository.GetSongs env f db =
          (.err (.app (NewNotFound msg none)), db)) ∧
      (∀ w, songsPageWindow (countSongsQuery env f db) f.Page f.PageSize = some w →
        PostgresSongRepository.GetSongs env f db =
          match env.fault .getSongs with
          | some m => (internalErr "failed to query songs" m, db)
          | none =>
            match getSongsQuery env f w.pageSize w.offset db, env.fault .scanSong with
            | _ :: _, some m => (internalErr "failed to scan song" m, db)
            | _, _ =>
              (.ok { Songs := getSongsQuery env f w.pageSize w.offset db,
                     CurrentPage := w.page, TotalPages := w.totalPages,
                     TotalItems := countSongsQuery env f db, PageSize := w.pageSize }, db))) ∧
    (repo.GetSongByID id st = (.ok song, st1) → song.Text ≠ "" →
      (lyricsPageWindow ((Split song.Text "\n\n").length : Int) page pageSize = none →
        SongService.GetLyrics repo id page pageSize st =
          (.err (.app (NewNotFound "page out of range" none)), st1)) ∧
      (∀ w, lyricsPageWindow ((Split song.Text "\n\n").length : Int) page pageSize = some w →
        SongService.GetLyrics repo id page pageSize st =
          match sliceBetween (Split song.Text "\n\n") w.offset
              (if goAdd w.offset w.pageSize > ((Split song.Text "\n\n").length : Int)
               then ((Split song.Text "\n\n").length : Int)
               else goAdd w.offset w.pageSize) with
          | none => (.panic, st1)
          | some sel =>
            (.ok { Text := Join sel "\n\n", CurrentPage := w.page,
                   TotalPages := w.totalPages, PageSize := w.pageSize }, st1))) := by
  have eW : ∀ m a b : Int, songsPageWindow m a b =
      if normPage a > goDiv (goSub (goAdd m (normPageSize b)) 1) (normPageSize b) then none
      else some { page := normPage a, pageSize := normPageSize b,
                  totalPages := goDiv (goSub (goAdd m (normPageSize b)) 1) (normPageSize b),
                  offset := goMul (goSub (normPage a) 1) (normPageSize b) } :=
    fun _ _ _ => rfl
  have eL : ∀ m a b : Int, lyricsPageWindow m a b = songsPageWindow m a b :=
    fun _ _ _ => rfl
  refine ⟨rfl, ?_, ?_⟩
  · intro hcount
    have eP : (if f.Page ≤ 0 then (1 : Int) else f.Page) = normPage f.Page := rfl
    have eS : (if f.PageSize ≤ 0 then (10 : Int) else f.PageSize) = normPageSize f.PageSize :=
      rfl
    constructor
    · intro hnone
      refine ⟨_, GetSongs_out_of_range env f db hcount ?_⟩
      rw [eW] at hnone
      by_contra hle
      rw [if_neg hle] at hnone
      exact Option.noConfusion hnone
    · intro w hw
      rw [eW] at hw
      by_cases hgt : normPage f.Page > goDiv (goSub (goAdd (countSongsQuery env f db)
          (normPageSize f.PageSize)) 1) (normPageSize f.PageSize)
      · rw [if_pos hgt] at hw
        exact Option.noConfusion hw
      · rw [if_neg hgt] at hw
        simp only [Option.some.injEq] at hw
        subst hw
        simp only [PostgresSongRepository.GetSongs, hcount, eP, eS]
        rw [if_neg hgt]
  · intro hget htext
    have eP : (if page ≤ 0 then (1 : Int) else page) = normPage page := rfl
    have eS : (if pageSize ≤ 0 then (10 : Int) else pageSize) = normPageSize pageSize := rfl
    constructor
    · intro hnone
      rw [eL, eW] at hnone
      have hgt : normPage page > goDiv (goSub (goAdd ((Split song.Text "\n\n").length : Int)
          (normPageSize pageSize)) 1) (normPageSize pageSize) := by
        by_contra hle
        rw [if_neg hle] at hnone
        exact Option.noConfusion hnone
      simp only [SongService.GetLyrics, hget, htext, if_false, eP, eS]
      rw [if_pos hgt]
    · intro w hw
      rw [eL, eW] at hw
      by_cases hgt : normPage page > goDiv (goSub (goAdd ((Split song.Text "\n\n").length : Int)
          (normPageSize pageSize)) 1) (normPageSize pageSize)
      · rw [if_pos hgt] at hw
        exact Option.noConfusion hw
      · rw [if_neg hgt] at hw
        simp only [Option.some.injEq] at hw
        subst hw
        simp only [SongService.GetLyrics, hget, htext, if_false, eP, eS]
        rw [if_neg hgt]

/-- C16 at concrete requests: page 3 of two items with page size 1 is rejected by both
arithmetics, by `GetSongs` and by `GetLyrics`. -/
theorem page_arithmetic_shared_witness :
    quietEnv.fault .countSongs = none ∧
    songsPageWindow (countSongsQuery quietEnv (emptyFilter 3 1) twoSongs) 3 1 = none ∧
    lyricsPageWindow ((Split "A\n\nB" "\n\n").length : Int) 3 1 = none ∧
    (∃ msg, PostgresSongRepository.GetSongs quietEnv (emptyFilter 3 1) twoSongs =
      (.err (.app (NewNotFound msg none)), twoSongs)) ∧
    SongService.GetLyrics (catalog quietEnv) 1 3 1 (lyricsDB "A\n\nB") =
      (.err (.app (NewNotFound "page out of range" none)), lyricsDB "A\n\nB") :=
  ⟨rfl, by decide, by decide,
   ((page_arithmetic_shared quietEnv (emptyFilter 3 1) twoSongs (catalog quietEnv) 1
      (lyricsDB "A\n\nB") (lyricsDB "A\n\nB") (mkSong 1 "g" "t" "A\n\nB") 2 3 1).2.1 rfl).1
      (by decide),
   ((page_arithmetic_shared quietEnv (emptyFilter 3 1) twoSongs (catalog quietEnv) 1
      (lyricsDB "A\n\nB") (lyricsDB "A\n\nB") (mkSong 1 "g" "t" "A\n\nB") 2 3 1).2.2
      (by decide) (by decide)).1 (by decide)⟩

/-! ## The slice of verses stays in range -/

/-- C18: for a loaded song with text, a verse count and a page size within Go `int`,
and any requested page: whenever the out-of-range check of `GetLyrics` passes (also
when the sums wrap around), `0 ≤ start < end ≤ len(verses)`, the slice expression
succeeds with at least one and at most `pageSize` verses, and `GetLyrics` returns that
page; in no case does `GetLyrics` panic. -/
theorem GetLyrics_slice_in_bounds {σ : Type} (repo : SongRepository σ) (id page pageSize : Int)
    (st st1 : σ) (song : Song)
    (hget : repo.GetSongByID id st = (.ok song, st1)) (htext : song.Text ≠ "")
    (hlen : ((Split song.Text "\n\n").length : Int) ≤ maxInt) (hq : pageSize ≤ maxInt) :
    (normPage page ≤ goDiv (goSub (goAdd ((Split song.Text "\n\n").length : Int)
        (normPageSize pageSize)) 1) (normPageSize pageSize) →
      0 ≤ lyricsStart page pageSize ∧
      lyricsStart page pageSize <
        lyricsEnd ((Split song.Text "\n\n").length : Int) page pageSize ∧
      lyricsEnd ((Split song.Text "\n\n").length : Int) page pageSize ≤
        ((Split song.Text "\n\n").length : Int) ∧
      ∃ sel, sliceBetween (Split song.Text "\n\n") (lyricsStart page pageSize)
          (lyricsEnd ((Split song.Text "\n\n").length : Int) page pageSize) = some sel ∧
        1 ≤ (sel.length : Int) ∧ (sel.length : Int) ≤ normPageSize pageSize ∧
        SongService.GetLyrics repo id page pageSize st =
          (.ok { Text := Join sel "\n\n", CurrentPage := normPage page
                 TotalPages := goDiv (goSub (goAdd ((Split song.Text "\n\n").length : Int)
                   (normPageSize pageSize)) 1) (normPageSize pageSize)
                 PageSize := normPageSize pageSize }, st1)) ∧
    SongService.GetLyrics repo id page pageSize st ≠ (.panic, st1) := by
  unfold maxInt at hlen hq
  have eP : (if page ≤ 0 then (1 : Int) else page) = normPage page := rfl
  have eS : (if pageSize ≤ 0 then (10 : Int) else pageSize) = normPageSize pageSize := rfl
  have hs := normPageSize_pos pageSize
  have hs2 := normPageSize_le pageSize hq
  have hp := normPage_pos page
  have hn : (0 : Int) ≤ ((Split song.Text "\n\n").length : Int) := by omega
  have main : normPage page ≤ goDiv (goSub (goAdd ((Split song.Text "\n\n").length : Int)
        (normPageSize pageSize)) 1) (normPageSize pageSize) →
      0 ≤ lyricsStart page pageSize ∧
      lyricsStart page pageSize <
        lyricsEnd ((Split song.Text "\n\n").length : Int) page pageSize ∧
      lyricsEnd ((Split song.Text "\n\n").length : Int) page pageSize ≤
        ((Split song.Text "\n\n").length : Int) ∧
      ∃ sel, sliceBetween (Split song.Text "\n\n") (lyricsStart page pageSize)
          (lyricsEnd ((Split song.Text "\n\n").length : Int) page pageSize) = some sel ∧
        1 ≤ (sel.length : Int) ∧ (sel.length : Int) ≤ normPageSize pageSize ∧
        SongService.GetLyrics repo id page pageSize st =
          (.ok { Text := Join sel "\n\n", CurrentPage := normPage page
                 TotalPages := goDiv (goSub (goAdd ((Split song.Text "\n\n").length : Int)
                   (normPageSize pageSize)) 1) (normPageSize pageSize)
                 PageSize := normPageSize pageSize }, st1) := by
    intro hle
    obtain ⟨-, hoff, hmul, hfit⟩ := page_in_range _ _ _ hn hlen hs hs2 hp hle
    have hnn : 0 ≤ (normPage page - 1) * normPageSize pageSize :=
      Int.mul_nonneg (by omega) (by omega)
    have hstart : lyricsStart page pageSize = (normPage page - 1) * normPageSize pageSize :=
      hmul
    have hadd : goAdd (lyricsStart page pageSize) (normPageSize pageSize) =
        lyricsStart page pageSize + normPageSize pageSize := by
      unfold goAdd
      exact wrapInt_of_range _ (by omega) (by omega)
    have hend : lyricsEnd ((Split song.Text "\n\n").length : Int) page pageSize =
        min (lyricsStart page pageSize + normPageSize pageSize)
          ((Split song.Text "\n\n").length : Int) := by
      unfold lyricsEnd
      rw [hadd, min_def]
      split <;> split <;> omega
    have h1 : 0 ≤ lyricsStart page pageSize := by omega
    have h2 : lyricsStart page pageSize <
        lyricsEnd ((Split song.Text "\n\n").length : Int) page pageSize := by
      rw [hend]; apply lt_min <;> omega
    have h3 : lyricsEnd ((Split song.Text "\n\n").length : Int) page pageSize ≤
        ((Split song.Text "\n\n").length : Int) := by
      rw [hend]; exact min_le_right _ _
    have hcond : 0 ≤ lyricsStart page pageSize ∧
        lyricsStart page pageSize ≤
          lyricsEnd ((Split song.Text "\n\n").length : Int) page pageSize ∧
        lyricsEnd ((Split song.Text "\n\n").length : Int) page pageSize ≤
          ((Split song.Text "\n\n").length : Int) := ⟨h1, le_of_lt h2, h3⟩
    have hslice : sliceBetween (Split song.Text "\n\n") (lyricsStart page pageSize)
        (lyricsEnd ((Split song.Text "\n\n").length : Int) page pageSize) =
        some (((Split song.Text "\n\n").drop (lyricsStart page pageSize).toNat).take
          ((lyricsEnd ((Split song.Text "\n\n").length : Int) page pageSize).toNat -
            (lyricsStart page pageSize).toNat)) := by
      simp only [sliceBetween, if_pos hcond]
    obtain ⟨-, -, -, hsel, -, -⟩ := sliceBetween_some _ _ _ _ hslice
    refine ⟨h1, h2, h3, _, hslice, ?_, ?_, ?_⟩
    · rw [hsel]; omega
    · rw [hsel, hend]
      have := min_le_left (lyricsStart page pageSize + normPageSize pageSize)
        ((Split song.Text "\n\n").length : Int)
      omega
    · have hslice2 := hslice
      unfold lyricsEnd lyricsStart at hslice2
      simp only [SongService.GetLyrics, hget, htext, if_false, eP, eS]
      rw [if_neg (by omega), hslice2]
      rfl
  refine ⟨main, ?_⟩
  by_cases hle : normPage page ≤ goDiv (goSub (goAdd ((Split song.Text "\n\n").length : Int)
        (normPageSize pageSize)) 1) (normPageSize pageSize)
  · obtain ⟨-, -, -, sel, -, -, -, hok⟩ := main hle
    rw [hok]
    simp
  · simp only [SongService.GetLyrics, hget, htext, if_false, eP, eS]
    rw [if_pos (by omega)]
    simp

/-- C18 at a request whose sum `len(verses) + pageSize` wraps around: one verse and
the largest page size pass the check, and the slice is the single verse. -/
theorem GetLyrics_slice_in_bounds_witness :
    (catalog quietEnv).GetSongByID 1 (lyricsDB "A") = (.ok (mkSong 1 "g" "t" "A"), lyricsDB "A") ∧
    goAdd ((Split "A" "\n\n").length : Int) 9223372036854775807 = -9223372036854775808 ∧
    ∃ sel, sliceBetween (Split (mkSong 1 "g" "t" "A").Text "\n\n")
        (lyricsStart 1 9223372036854775807)
        (lyricsEnd ((Split (mkSong 1 "g" "t" "A").Text "\n\n").length : Int) 1
          9223372036854775807) = some sel ∧
      1 ≤ (sel.length : Int) ∧ (sel.length : Int) ≤ normPageSize 9223372036854775807 ∧
      SongService.GetLyrics (catalog quietEnv) 1 1 9223372036854775807 (lyricsDB "A") =
        (.ok { Text := Join sel "\n\n", CurrentPage := normPage 1
               TotalPages := goDiv (goSub (goAdd
                 ((Split (mkSong 1 "g" "t" "A").Text "\n\n").length : Int)
                 (normPageSize 9223372036854775807)) 1) (normPageSize 9223372036854775807)
               PageSize := normPageSize 9223372036854775807 }, lyricsDB "A") :=
  ⟨by decide, by decide,
   ((GetLyrics_slice_in_bounds (catalog quietEnv) 1 1 9223372036854775807 (lyricsDB "A")
      (lyricsDB "A") (mkSong 1 "g" "t" "A") (by decide) (by decide) (by decide)
      (by decide)).1 (by decide)).2.2.2⟩

/-! ## Pages put together -/

/-- C17 (defect in the page count): the text "A\n\nB\n\nC" has three verses; with page
size 9223372036854775806, which is at least the verse count, the sum
`len(verses) + pageSize - 1` wraps around, the page count is -1, and `GetLyrics`
rejects every page, so no page returns the text. -/
theorem GetLyrics_pages_lost_on_wrap :
    Split "A\n\nB\n\nC" "\n\n" = ["A", "B", "C"] ∧
    goDiv (goSub (goAdd 3 9223372036854775806) 1) 9223372036854775806 = -1 ∧
    ceilDiv 3 9223372036854775806 = 1 ∧
    ∀ page : Int,
      SongService.GetLyrics (catalog quietEnv) 1 page 9223372036854775806
          (lyricsDB "A\n\nB\n\nC") =
        (.err (.app (NewNotFound "page out of range" none)), lyricsDB "A\n\nB\n\nC") := by
  refine ⟨by decide, by decide, ?_, ?_⟩
  · rw [ceilDiv_eq _ _ (by decide)]
    decide
  · intro page
    have hget : (catalog quietEnv).GetSongByID 1 (lyricsDB "A\n\nB\n\nC") =
        (.ok (mkSong 1 "g" "t" "A\n\nB\n\nC"), lyricsDB "A\n\nB\n\nC") := by decide
    have htext : (mkSong 1 "g" "t" "A\n\nB\n\nC").Text ≠ "" := by decide
    have hsplit : Split (mkSong 1 "g" "t" "A\n\nB\n\nC").Text "\n\n" = ["A", "B", "C"] := by
      decide
    have hS : (if (9223372036854775806 : Int) ≤ 0 then (10 : Int) else 9223372036854775806) =
        9223372036854775806 := by decide
    have htp : goDiv (goSub (goAdd ((["A", "B", "C"] : List String).length : Int)
        9223372036854775806) 1) 9223372036854775806 = -1 := by decide
    have hp := normPage_pos page
    have eP : (if page ≤ 0 then (1 : Int) else page) = normPage page := rfl
    simp only [SongService.GetLyrics, hget, htext, if_false, hsplit, hS, htp, eP]
    rw [if_pos (by omega)]

/-! ## Splitting and joining are inverse -/

theorem splitFrom_ne_nil (sep : List Char) (l : List Char) (k : Nat) (cur : List Char) :
    splitFrom sep l k cur ≠ [] := by
  induction l generalizing k cur with
  | nil => simp [splitFrom]
  | cons c rest ih =>
    cases k with
    | zero =>
      simp only [splitFrom]
      split
      · simp
      · exact ih 0 (c :: cur)
    | succ k =>
      simp only [splitFrom]
      exact ih k cur

theorem joinChars_cons (a : List Char) (ps : List (List Char)) (sep : List Char)
    (h : ps ≠ []) : joinChars (a :: ps) sep = a ++ sep ++ joinChars ps sep := by
  cases ps with
  | nil => exact absurd rfl h
  | cons b rest => rfl

/-- Joining the pieces of the scanner gives back what it read. -/
theorem joinChars_splitFrom (sep : List Char) (hsep : sep ≠ []) (l : List Char) :
    (∀ cur, joinChars (splitFrom sep l 0 cur) sep = cur.reverse ++ l) ∧
    (∀ k, joinChars (splitFrom sep l k []) sep = l.drop k) := by
  induction l with
  | nil =>
    constructor
    · intro cur; simp [splitFrom, joinChars]
    · intro k; simp [splitFrom, joinChars]
  | cons c rest ih =>
    have first : ∀ cur, joinChars (splitFrom sep (c :: rest) 0 cur) sep =
        cur.reverse ++ (c :: rest) := by
      intro cur
      simp only [splitFrom]
      split
      · rename_i hpre
        obtain ⟨t, ht⟩ := List.isPrefixOf_iff_prefix.1 hpre
        rw [joinChars_cons _ _ _ (splitFrom_ne_nil _ _ _ _), ih.2]
        have hlen : 0 < sep.length := List.length_pos.2 hsep
        have hdrop : rest.drop (sep.length - 1) = (c :: rest).drop sep.length := by
          have : sep.length = (sep.length - 1) + 1 := by omega
          rw [this, List.drop_succ_cons]
          simp
        rw [hdrop, ← ht, List.drop_left, List.append_assoc]
      · rw [ih.1 (c :: cur)]
        simp
    refine ⟨first, ?_⟩
    intro k
    cases k with
    | zero => simpa using first []
    | succ k =>
      simp only [splitFrom, List.drop_succ_cons]
      exact ih.2 k

theorem Join_map_mk (ps : List (List Char)) (sep : String) :
    Join (ps.map String.mk) sep = String.mk (joinChars ps sep.data) := by
  induction ps with
  | nil => rfl
  | cons a rest ih =>
    cases rest with
    | nil => rfl
    | cons b rest2 =>
      simp only [List.map_cons, Join, joinChars] at ih ⊢
      rw [ih]
      rfl

/-- Joining the verses of a text with the separator gives the text back. -/
theorem Join_Split (s sep : String) (hsep : sep ≠ "") : Join (Split s sep) sep = s := by
  have hd : sep.data ≠ [] := by
    intro h
    apply hsep
    cases sep
    simp_all
  simp only [Split, if_neg hsep]
  rw [Join_map_mk, (joinChars_splitFrom sep.data hd s.data).1 []]
  simp

theorem Split_length_pos (s sep : String) (hsep : sep ≠ "") : 0 < (Split s sep).length := by
  simp only [Split, if_neg hsep, List.length_map]
  exact List.length_pos.2 (splitFrom_ne_nil _ _ _ _)

/-- Without wrap-around, a page size of at least the verse count makes page 1 the
whole text. -/
theorem GetLyrics_whole_text {σ : Type} (repo : SongRepository σ) (id pageSize : Int)
    (st st1 : σ) (song : Song)
    (hget : repo.GetSongByID id st = (.ok song, st1)) (htext : song.Text ≠ "")
    (hbig : ((Split song.Text "\n\n").length : Int) ≤ pageSize)
    (hfit : ((Split song.Text "\n\n").length : Int) + pageSize - 1 ≤ maxInt) :
    SongService.GetLyrics repo id 1 pageSize st =
      (.ok { Text := song.Text, CurrentPage := 1, TotalPages := 1, PageSize := pageSize },
       st1) := by
  have hpos := Split_length_pos song.Text "\n\n" (by decide)
  have hn : (1 : Int) ≤ ((Split song.Text "\n\n").length : Int) := by omega
  have hS : normPageSize pageSize = pageSize := by
    unfold normPageSize; rw [if_neg (by omega)]
  have hP : normPage 1 = 1 := by decide
  have hq : pageSize ≤ maxInt := by unfold maxInt at hfit ⊢; omega
  have hceil : ceilDiv ((Split song.Text "\n\n").length : Int) pageSize = 1 := by
    rw [ceilDiv_eq _ _ (by omega)]
    have h1 : ((Split song.Text "\n\n").length : Int) + pageSize - 1 =
        (((Split song.Text "\n\n").length : Int) - 1) + pageSize * 1 := by ring
    rw [h1, Int.add_mul_ediv_left _ _ (by omega), Int.ediv_eq_zero_of_lt (by omega) (by omega)]
    rfl
  have h := (GetLyrics_in_range repo id 1 pageSize st st1 song hget htext hq
    (by rw [hS]; exact hfit)).1 (by rw [hS, hP, hceil])
  rw [h, hS, hP, hceil]
  have hmin : min (1 * pageSize) ((Split song.Text "\n\n").length : Int) =
      ((Split song.Text "\n\n").length : Int) := by
    rw [min_eq_right (by omega)]
  simp only [hmin, sub_self, zero_mul, Int.toNat_zero, List.drop_zero, Int.toNat_ofNat,
    Nat.sub_zero, List.take_length]
  rw [Join_Split song.Text "\n\n" (by decide)]

theorem Join_cons (a : String) (ps : List String) (sep : String) (h : ps ≠ []) :
    Join (a :: ps) sep = a ++ sep ++ Join ps sep := by
  cases ps with
  | nil => exact absurd rfl h
  | cons b rest => rfl

theorem Join_append (a b : List String) (sep : String) (ha : a ≠ []) (hb : b ≠ []) :
    Join (a ++ b) sep = Join a sep ++ sep ++ Join b sep := by
  induction a with
  | nil => exact absurd rfl ha
  | cons x rest ih =>
    cases rest with
    | nil =>
      simp only [List.singleton_append]
      rw [Join_cons x b sep hb]
      rfl
    | cons y rest2 =>
      have h1 : (x :: y :: rest2) ++ b = x :: ((y :: rest2) ++ b) := rfl
      rw [h1, Join_cons x _ sep (by simp), ih (by simp), Join_cons x _ sep (by simp)]
      simp only [String.append_assoc]

theorem verseChunks_succ (s : Nat) (v : List String) (k : Nat) :
    verseChunks s v (k + 1) = v.take s :: verseChunks s (v.drop s) k := by
  unfold verseChunks
  rw [List.range_succ_eq_map, List.map_cons, List.map_map]
  simp only [Nat.zero_mul, List.drop_zero, List.cons.injEq, true_and]
  apply List.map_congr_left
  intro i _
  simp only [Function.comp, List.drop_drop, Nat.succ_eq_add_one]
  congr 2
  ring

/-- Joining the joined pages gives the join of all verses. -/
theorem Join_verseChunks (s : Nat) (hs : 0 < s) (sep : String) (k : Nat) :
    ∀ v : List String, v ≠ [] → (k - 1) * s < v.length → v.length ≤ k * s →
      Join ((verseChunks s v k).map (fun c => Join c sep)) sep = Join v sep := by
  induction k with
  | zero =>
    intro v hv _ hle
    have : v.length = 0 := by omega
    exact absurd (List.length_eq_zero.1 this) hv
  | succ k ih =>
    intro v hv hlo hhi
    rw [verseChunks_succ, List.map_cons]
    cases k with
    | zero =>
      have hlen : v.length ≤ s := by simpa using hhi
      simp only [verseChunks, List.range_zero, List.map_nil, Join, List.take_of_length_le hlen]
    | succ j =>
      simp only [Nat.add_sub_cancel] at hlo
      have hlo2 : s + j * s < v.length := by
        have : (j + 1) * s = s + j * s := by ring
        omega
      have hhi2 : v.length ≤ s + (j + 1) * s := by
        have : (j + 1 + 1) * s = s + (j + 1) * s := by ring
        omega
      have hdrop : v.drop s ≠ [] := by
        intro h
        have := congrArg List.length h
        simp only [List.length_drop, List.length_nil] at this
        omega
      have htake : v.take s ≠ [] := by
        intro h
        have := congrArg List.length h
        simp only [List.length_take, List.length_nil] at this
        omega
      have hrest : (verseChunks s (v.drop s) (j + 1)).map (fun c => Join c sep) ≠ [] := by
        rw [verseChunks_succ]; simp
      rw [Join_cons _ _ _ hrest]
      rw [ih (v.drop s) hdrop (by simp only [Nat.add_sub_cancel, List.length_drop]; omega)
        (by simp only [List.length_drop]; omega)]
      rw [← Join_append _ _ _ htake hdrop, List.take_append_drop]

/-- Without wrap-around of `len(verses) + pageSize - 1`, for a positive page size every
page `1 .. TotalPages` of `GetLyrics` succeeds with its chunk of verses, and the page
texts joined with the separator give the full text. -/
theorem GetLyrics_pages_join {σ : Type} (repo : SongRepository σ) (id pageSize : Int)
    (st st1 : σ) (song : Song)
    (hget : repo.GetSongByID id st = (.ok song, st1)) (htext : song.Text ≠ "")
    (hpos : 0 < pageSize)
    (hfit : ((Split song.Text "\n\n").length : Int) + pageSize - 1 ≤ maxInt) :
    (∀ i : Nat, (i : Int) < ceilDiv ((Split song.Text "\n\n").length : Int) pageSize →
      SongService.GetLyrics repo id ((i : Int) + 1) pageSize st =
        (.ok { Text := Join (((Split song.Text "\n\n").drop (i * pageSize.toNat)).take
                 pageSize.toNat) "\n\n"
               CurrentPage := (i : Int) + 1
               TotalPages := ceilDiv ((Split song.Text "\n\n").length : Int) pageSize
               PageSize := pageSize }, st1)) ∧
    Join ((verseChunks pageSize.toNat (Split song.Text "\n\n")
        (ceilDiv ((Split song.Text "\n\n").length : Int) pageSize).toNat).map
        (fun c => Join c "\n\n")) "\n\n" = song.Text := by
  have hlenpos := Split_length_pos song.Text "\n\n" (by decide)
  have hS : normPageSize pageSize = pageSize := by
    unfold normPageSize; rw [if_neg (by omega)]
  have hq : pageSize ≤ maxInt := by unfold maxInt at hfit ⊢; omega
  have hsn : (pageSize.toNat : Int) = pageSize := Int.toNat_of_nonneg (by omega)
  have hceil := ceilDiv_eq ((Split song.Text "\n\n").length : Int) pageSize hpos
  have h1 : (((Split song.Text "\n\n").length : Int) + pageSize - 1) / pageSize * pageSize ≤
      ((Split song.Text "\n\n").length : Int) + pageSize - 1 := Int.ediv_mul_le _ (by omega)
  have h2 : ((Split song.Text "\n\n").length : Int) + pageSize - 1 <
      ((((Split song.Text "\n\n").length : Int) + pageSize - 1) / pageSize + 1) * pageSize :=
    Int.lt_ediv_add_one_mul_self _ hpos
  rw [← hceil] at h1 h2
  generalize hT : ceilDiv ((Split song.Text "\n\n").length : Int) pageSize = T at h1 h2 ⊢
  generalize hv : Split song.Text "\n\n" = v at hfit hlenpos h1 h2 hT ⊢
  have hTpos : 0 < T := by
    by_contra hc
    have : T * pageSize ≤ 0 := Int.mul_nonpos_of_nonpos_of_nonneg (by omega) (by omega)
    nlinarith
  constructor
  · intro i hi
    have hP : normPage ((i : Int) + 1) = (i : Int) + 1 := by
      unfold normPage; rw [if_neg (by omega)]
    have h := (GetLyrics_in_range repo id ((i : Int) + 1) pageSize st st1 song hget htext hq
      (by rw [hS, hv]; exact hfit)).1 (by rw [hS, hP, hv, hT]; omega)
    rw [h, hS, hP, hv, hT]
    have hstart : (((i : Int) + 1 - 1) * pageSize).toNat = i * pageSize.toNat := by
      have : ((i : Int) + 1 - 1) * pageSize = ((i * pageSize.toNat : Nat) : Int) := by
        push_cast; rw [hsn]; ring
      rw [this, Int.toNat_ofNat]
    rw [hstart]
    have hin : ((i * pageSize.toNat : Nat) : Int) < (v.length : Int) := by
      push_cast; rw [hsn]; nlinarith
    have htk : List.take ((min (((i : Int) + 1) * pageSize) (v.length : Int)).toNat -
        i * pageSize.toNat) (List.drop (i * pageSize.toNat) v) =
        List.take pageSize.toNat (List.drop (i * pageSize.toNat) v) := by
      rw [List.take_eq_take, List.length_drop]
      have e1 : ((i : Int) + 1) * pageSize =
          ((i * pageSize.toNat + pageSize.toNat : Nat) : Int) := by
        push_cast; rw [hsn]; ring
      rw [e1]
      have e2 : min ((i * pageSize.toNat + pageSize.toNat : Nat) : Int) (v.length : Int) =
          ((min (i * pageSize.toNat + pageSize.toNat) v.length : Nat) : Int) := by
        rw [Nat.cast_min]
      rw [e2, Int.toNat_ofNat]
      omega
    rw [htk]
  · have hT2 : ((T.toNat : Nat) : Int) = T := Int.toNat_of_nonneg (by omega)
    have hne : v ≠ [] := List.length_pos.1 hlenpos
    have hspos : 0 < pageSize.toNat := by omega
    have hlo : (T.toNat - 1) * pageSize.toNat < v.length := by
      have : (((T.toNat - 1) * pageSize.toNat : Nat) : Int) < (v.length : Int) := by
        have hsub : ((T.toNat - 1 : Nat) : Int) = T - 1 := by omega
        push_cast
        rw [hsub, hsn]
        nlinarith
      exact_mod_cast this
    have hhi : v.length ≤ T.toNat * pageSize.toNat := by
      have : (v.length : Int) ≤ ((T.toNat * pageSize.toNat : Nat) : Int) := by
        push_cast
        rw [hT2, hsn]
        nlinarith
      exact_mod_cast this
    rw [Join_verseChunks pageSize.toNat hspos "\n\n" T.toNat v hne hlo hhi, ← hv]
    exact Join_Split song.Text "\n\n" (by decide)

end SongCatalog
